import Mathlib

/-!
Shallow embedding of `DisplayPlane.cpp` (rockchip-android-hardware-intel-img-hwcomposer):
the buffer-mapping cache and dirty-state tracker of a display plane.

The plane state mirrors the C++ member variables of `DisplayPlane`. The external
buffer-manager collaborator (`Hwcomposer::getInstance().getBufferManager()`) is a
parameter record of pure functions. Every operation additionally returns the list
of collaborator events it performed (lock/unlock/map/unmap and active-set
admissions), in call order, so that theorems can speak about how often and from
which call site a mapping was unmapped.
-/

set_option maxHeartbeats 1000000

namespace Hwc

/-- A rectangle of four integers, used for the plane position and source crop. -/
structure Rect where
  x : Int
  y : Int
  w : Int
  h : Int
deriving DecidableEq

/-- Modelled from the spec: `MIN_DATA_BUFFER_COUNT` is declared in `DisplayPlane.h`,
which is not among the sources; the spec calls it the small fixed minimum floor
for both the cache-capacity clamp and the active-set bound, "e.g. 2". -/
def MIN_DATA_BUFFER_COUNT : Nat := 2

/-- Modelled from the spec: the transform enumeration lives in `DisplayPlane.h`
(not among the sources); the spec enumerates {identity, rotate-90, rotate-180,
rotate-270} with identity being 0. -/
def PLANE_TRANSFORM_0 : Int := 0

/-- Modelled from the spec: rotate-90 transform value (header not among sources). -/
def PLANE_TRANSFORM_90 : Int := 90

/-- Modelled from the spec: rotate-180 transform value (header not among sources). -/
def PLANE_TRANSFORM_180 : Int := 180

/-- Modelled from the spec: rotate-270 transform value (header not among sources). -/
def PLANE_TRANSFORM_270 : Int := 270

/-- Modelled from the spec: the dirty mask is "a set of independent bits" declared
in `DisplayPlane.h` (not among the sources); position bit. -/
def PLANE_POSITION_CHANGED : Nat := 1

/-- Modelled from the spec: source-crop dirty bit (header not among sources). -/
def PLANE_SOURCE_CROP_CHANGED : Nat := 2

/-- Modelled from the spec: transform dirty bit (header not among sources). -/
def PLANE_TRANSFORM_CHANGED : Nat := 4

/-- Modelled from the spec: buffer dirty bit (header not among sources). -/
def PLANE_BUFFER_CHANGED : Nat := 8

/-- All 32 bits set: the width of the C++ `uint32_t` update mask. -/
def UINT32_MAX : Nat := 4294967295

/-- `m &= ~b` on the 32-bit update mask. -/
def maskClear (m b : Nat) : Nat := m &&& (UINT32_MAX ^^^ b)

/-- Call site from which `BufferManager::unmap` was invoked. -/
inductive Origin where
  /-- Unmap performed by `invalidateBufferCache` (full-cache invalidation). -/
  | cacheInval
  /-- Unmap of the oldest active entry performed by `updateActiveBuffers`. -/
  | activeEvict
  /-- Unmap performed by `invalidateActiveBuffers`. -/
  | activeInval
deriving DecidableEq

/-- Collaborator events, recorded in call order. -/
inductive Event where
  /-- `BufferManager::lockDataBuffer(handle)` was called. -/
  | lockBuf (handle : Nat)
  /-- `BufferManager::unlockDataBuffer` was called. -/
  | unlockBuf
  /-- `BufferManager::map` was called for the buffer with this key. -/
  | mapTry (key : Nat)
  /-- `BufferManager::unmap` was called for the mapping with this key. -/
  | unmapBuf (o : Origin) (key : Nat)
  /-- The mapping with this key was pushed onto the active-buffer list
  (after `incRef`), i.e. admitted to the Active Set. -/
  | queued (key : Nat)
deriving DecidableEq

/-- State of one `DisplayPlane`, mirroring the C++ data members. A `BufferMapper`
is identified by the key of the buffer it maps; its source-crop rectangle is
stored alongside the key in `mDataBuffers`. `mActiveBuffers` holds mapper keys in
admission order (front = oldest). `mCurrentDataBuffer = 0` means no bound buffer. -/
structure DisplayPlane where
  mIndex : Int
  mType : Int
  mZOrder : Int
  mDevice : Int
  mInitialized : Bool
  mDataBuffers : List (Nat × Rect)
  mActiveBuffers : List Nat
  mCacheCapacity : Nat
  mIsProtectedBuffer : Bool
  mTransform : Int
  mCurrentDataBuffer : Nat
  mUpdateMasks : Nat
  mPosition : Rect
  mSrcCrop : Rect
deriving DecidableEq

/-- The external buffer-manager collaborator, as pure functions:
`lockDataBuffer` resolves a handle to the buffer's stable key (`none` models a
lock failure), `mapOk` tells whether mapping the buffer with a given key
succeeds, and `isProtectedBuffer` is the protected-content classifier. -/
structure BufferManager where
  lockDataBuffer : Nat → Option Nat
  mapOk : Nat → Bool
  isProtectedBuffer : Nat → Bool

namespace DisplayPlane

/-- The `DisplayPlane(index, type, disp)` constructor. -/
def construct (index ty disp : Int) : DisplayPlane :=
  { mIndex := index
    mType := ty
    mZOrder := -1
    mDevice := disp
    mInitialized := false
    mDataBuffers := []
    mActiveBuffers := []
    mCacheCapacity := 0
    mIsProtectedBuffer := false
    mTransform := PLANE_TRANSFORM_0
    mCurrentDataBuffer := 0
    mUpdateMasks := 0
    mPosition := ⟨0, 0, 0, 0⟩
    mSrcCrop := ⟨0, 0, 0, 0⟩ }

/-- `DisplayPlane::initialize(bufferCount)`: clamps the count up to
`MIN_DATA_BUFFER_COUNT`, stores it as the cache capacity and marks the plane
initialized. It always returns `true`, so only the state is returned here. -/
def initPlane (s : DisplayPlane) (bufferCount : Nat) : DisplayPlane :=
  let bc := if bufferCount < MIN_DATA_BUFFER_COUNT then MIN_DATA_BUFFER_COUNT else bufferCount
  { s with mCacheCapacity := bc, mInitialized := true }

/-- `DisplayPlane::invalidateBufferCache()`: guarded by the initialized check
(`RETURN_VOID_IF_NOT_INIT`); unmaps every cached mapping, clears the cache and
resets the current bound buffer to 0. -/
def invalidateBufferCache (s : DisplayPlane) : DisplayPlane × List Event :=
  if s.mInitialized then
    ({ s with mDataBuffers := [], mCurrentDataBuffer := 0 },
     s.mDataBuffers.map (fun e => Event.unmapBuf Origin.cacheInval e.1))
  else (s, [])

/-- `DisplayPlane::invalidateActiveBuffers()`: guarded by the initialized check;
unmaps every active mapping and clears the active list. -/
def invalidateActiveBuffers (s : DisplayPlane) : DisplayPlane × List Event :=
  if s.mInitialized then
    ({ s with mActiveBuffers := [] },
     s.mActiveBuffers.map (Event.unmapBuf Origin.activeInval))
  else (s, [])

/-- `DisplayPlane::deinitialize()`: invalidates the data-buffer cache and the
active buffers (each only if non-empty), clears the current buffer and leaves
the initialized state. -/
def deinitPlane (s : DisplayPlane) : DisplayPlane × List Event :=
  let p1 := if s.mDataBuffers.length ≠ 0 then invalidateBufferCache s else (s, [])
  let p2 := if p1.1.mActiveBuffers.length ≠ 0 then invalidateActiveBuffers p1.1 else (p1.1, [])
  ({ p2.1 with mCurrentDataBuffer := 0, mInitialized := false }, p1.2 ++ p2.2)

/-- `DisplayPlane::reset()`: reclaims both structures (each only if non-empty)
but stays initialized; always returns `true`, so only state and events are
returned. -/
def reset (s : DisplayPlane) : DisplayPlane × List Event :=
  let p1 := if s.mDataBuffers.length > 0 then invalidateBufferCache s else (s, [])
  let p2 := if p1.1.mActiveBuffers.length > 0 then invalidateActiveBuffers p1.1 else (p1.1, [])
  (p2.1, p1.2 ++ p2.2)

/-- `DisplayPlane::setPosition(x, y, w, h)`: if unchanged, clears the position
dirty bit; otherwise stores the rectangle and sets the bit. -/
def setPosition (s : DisplayPlane) (x y w h : Int) : DisplayPlane :=
  if s.mPosition.x = x ∧ s.mPosition.y = y ∧ s.mPosition.w = w ∧ s.mPosition.h = h then
    { s with mUpdateMasks := maskClear s.mUpdateMasks PLANE_POSITION_CHANGED }
  else
    { s with mPosition := ⟨x, y, w, h⟩,
             mUpdateMasks := s.mUpdateMasks ||| PLANE_POSITION_CHANGED }

/-- `DisplayPlane::setSourceCrop(x, y, w, h)`: if unchanged, clears the crop
dirty bit; otherwise stores the rectangle and sets the bit. -/
def setSourceCrop (s : DisplayPlane) (x y w h : Int) : DisplayPlane :=
  if s.mSrcCrop.x = x ∧ s.mSrcCrop.y = y ∧ s.mSrcCrop.w = w ∧ s.mSrcCrop.h = h then
    { s with mUpdateMasks := maskClear s.mUpdateMasks PLANE_SOURCE_CROP_CHANGED }
  else
    { s with mSrcCrop := ⟨x, y, w, h⟩,
             mUpdateMasks := s.mUpdateMasks ||| PLANE_SOURCE_CROP_CHANGED }

/-- `DisplayPlane::setTransform(trans)`: if equal to the stored transform,
clears the transform dirty bit; otherwise normalizes non-rotation values to
identity, stores the result and sets the bit. -/
def setTransform (s : DisplayPlane) (trans : Int) : DisplayPlane :=
  if s.mTransform = trans then
    { s with mUpdateMasks := maskClear s.mUpdateMasks PLANE_TRANSFORM_CHANGED }
  else
    let t :=
      if trans = PLANE_TRANSFORM_90 ∨ trans = PLANE_TRANSFORM_180 ∨ trans = PLANE_TRANSFORM_270
      then trans else PLANE_TRANSFORM_0
    { s with mTransform := t, mUpdateMasks := s.mUpdateMasks ||| PLANE_TRANSFORM_CHANGED }

/-- `DisplayPlane::isActiveBuffer(mapper)`: whether a mapper with this key is in
the active-buffer list (list entries are never null in the model). -/
def isActiveBuffer (s : DisplayPlane) (key : Nat) : Bool :=
  s.mActiveBuffers.contains key

/-- `DisplayPlane::updateActiveBuffers(mapper)`: if the list holds at least
`MIN_DATA_BUFFER_COUNT` entries, unmaps and removes the front (oldest) entry;
then, if the key is not already active, increments its reference and pushes it
at the back. -/
def updateActiveBuffers (s : DisplayPlane) (key : Nat) : DisplayPlane × List Event :=
  let p1 :=
    if MIN_DATA_BUFFER_COUNT ≤ s.mActiveBuffers.length then
      ({ s with mActiveBuffers := s.mActiveBuffers.tail },
       (s.mActiveBuffers.head?.map (Event.unmapBuf Origin.activeEvict)).toList)
    else (s, [])
  if isActiveBuffer p1.1 key then p1
  else ({ p1.1 with mActiveBuffers := p1.1.mActiveBuffers ++ [key] },
        p1.2 ++ [Event.queued key])

/-- `KeyedVector::indexOfKey` followed by `valueAt`, as an association-list find. -/
def kvFind (l : List (Nat × Rect)) (key : Nat) : Option (Nat × Rect) :=
  l.find? (fun e => e.1 = key)

/-- `KeyedVector::add(key, value)`: replaces the value if the key is present,
appends otherwise. -/
def kvAdd (l : List (Nat × Rect)) (key : Nat) (c : Rect) : List (Nat × Rect) :=
  if l.any (fun e => e.1 = key) then
    l.map (fun e => if e.1 = key then (key, c) else e)
  else l ++ [(key, c)]

/-- `mapper->setCrop(...)` on the cached mapping with the given key. -/
def kvSetCrop (l : List (Nat × Rect)) (key : Nat) (c : Rect) : List (Nat × Rect) :=
  l.map (fun e => if e.1 = key then (key, c) else e)

/-- `DisplayPlane::mapBuffer(buffer)`: invalidates the whole cache first if it
is full, then asks the buffer manager to map the buffer (whose crop was set to
the plane's source crop by the caller) and adds the mapping to the cache.
Returns the mapper key on success, `none` on map failure. -/
def mapBuffer (bm : BufferManager) (s : DisplayPlane) (key : Nat) :
    Option Nat × DisplayPlane × List Event :=
  let p1 := if s.mCacheCapacity ≤ s.mDataBuffers.length then invalidateBufferCache s
            else (s, [])
  if bm.mapOk key then
    (some key,
     { p1.1 with mDataBuffers := kvAdd p1.1.mDataBuffers key s.mSrcCrop },
     p1.2 ++ [Event.mapTry key])
  else (none, p1.1, p1.2 ++ [Event.mapTry key])

/-- Modelled from the spec: `setDataBuffer(BufferMapper&)` is the plane-type
specific hardware programming step, virtual and implemented by subclasses that
are not among the sources; the spec lists no failure mode for it (its error
kinds are only NotInitialized, InvalidHandle, BufferLockFailed, MapFailed), so
it is modelled as always succeeding. -/
def programDataBuffer (_key : Nat) : Bool := true

/-- `DisplayPlane::setDataBuffer(uint32_t handle)`: the buffer-set entry point.
Gated on initialization and a non-null handle; updates the buffer dirty bit by
comparing the handle with the current bound buffer; returns early when the whole
mask is clear; otherwise locks the buffer, refreshes the protected flag, looks
the key up in the cache (mapping it on a miss, refreshing the cached crop on a
hit), unlocks, programs the hardware, and on success records the bound handle
and updates the active buffers. -/
def setDataBuffer (bm : BufferManager) (s : DisplayPlane) (handle : Nat) :
    Bool × DisplayPlane × List Event :=
  if !s.mInitialized then (false, s, [])
  else if handle = 0 then (false, s, [])
  else
    let masks :=
      if s.mCurrentDataBuffer ≠ handle then s.mUpdateMasks ||| PLANE_BUFFER_CHANGED
      else maskClear s.mUpdateMasks PLANE_BUFFER_CHANGED
    let s1 := { s with mUpdateMasks := masks }
    if masks = 0 then (true, s1, [])
    else
      match bm.lockDataBuffer handle with
      | none => (false, s1, [Event.lockBuf handle])
      | some key =>
        let s2 := { s1 with mIsProtectedBuffer := bm.isProtectedBuffer key }
        match kvFind s2.mDataBuffers key with
        | none =>
          let r := mapBuffer bm s2 key
          match r.1 with
          | none =>
            (false, r.2.1, Event.lockBuf handle :: (r.2.2 ++ [Event.unlockBuf]))
          | some k =>
            if programDataBuffer k then
              let s4 := { r.2.1 with mCurrentDataBuffer := handle }
              let p5 := updateActiveBuffers s4 k
              (true, p5.1, Event.lockBuf handle :: (r.2.2 ++ [Event.unlockBuf] ++ p5.2))
            else
              (false, r.2.1, Event.lockBuf handle :: (r.2.2 ++ [Event.unlockBuf]))
        | some _ =>
          let s3 := { s2 with mDataBuffers := kvSetCrop s2.mDataBuffers key s2.mSrcCrop }
          if programDataBuffer key then
            let s4 := { s3 with mCurrentDataBuffer := handle }
            let p5 := updateActiveBuffers s4 key
            (true, p5.1, Event.lockBuf handle :: (Event.unlockBuf :: p5.2))
          else
            (false, s3, [Event.lockBuf handle, Event.unlockBuf])

/-- `DisplayPlane::flip(ctx)`: false when not initialized, otherwise true
exactly when the update mask is non-zero. -/
def flip (s : DisplayPlane) : Bool :=
  if !s.mInitialized then false
  else if s.mUpdateMasks = 0 then false
  else true

/-- `DisplayPlane::assignToDevice(disp)`: gated on initialization. -/
def assignToDevice (s : DisplayPlane) (disp : Int) : Bool × DisplayPlane :=
  if !s.mInitialized then (false, s)
  else (true, { s with mDevice := disp })

/-- `DisplayPlane::setZOrder(zorder)`. -/
def setZOrder (s : DisplayPlane) (z : Int) : DisplayPlane :=
  { s with mZOrder := z }

end DisplayPlane

/-- One externally invokable operation on a plane. -/
inductive PlaneOp where
  | opInit (n : Nat)
  | opDeinit
  | opReset
  | opSetPosition (x y w h : Int)
  | opSetSourceCrop (x y w h : Int)
  | opSetTransform (t : Int)
  | opSetDataBuffer (handle : Nat)
  | opAssignToDevice (d : Int)
  | opSetZOrder (z : Int)
deriving DecidableEq

/-- Apply one operation, returning the new state and the collaborator events. -/
def stepOp (bm : BufferManager) (s : DisplayPlane) : PlaneOp → DisplayPlane × List Event
  | .opInit n => (s.initPlane n, [])
  | .opDeinit => s.deinitPlane
  | .opReset => s.reset
  | .opSetPosition x y w h => (s.setPosition x y w h, [])
  | .opSetSourceCrop x y w h => (s.setSourceCrop x y w h, [])
  | .opSetTransform t => (s.setTransform t, [])
  | .opSetDataBuffer h =>
    let r := DisplayPlane.setDataBuffer bm s h
    (r.2.1, r.2.2)
  | .opAssignToDevice d => ((s.assignToDevice d).2, [])
  | .opSetZOrder z => (s.setZOrder z, [])

/-- Run a sequence of operations, accumulating the event log. -/
def runOps (bm : BufferManager) (s : DisplayPlane) : List PlaneOp → DisplayPlane × List Event
  | [] => (s, [])
  | op :: rest =>
    let p := stepOp bm s op
    let q := runOps bm p.1 rest
    (q.1, p.2 ++ q.2)

/-- True when the sequence never re-invokes `initialize`. -/
def noInitOps (ops : List PlaneOp) : Bool :=
  ops.all (fun op => match op with | .opInit _ => false | _ => true)

/-- Keys admitted to the Active Set, in chronological order. -/
def queuedOf (log : List Event) : List Nat :=
  log.filterMap (fun e => match e with | .queued k => some k | _ => none)

/-- Keys unmapped by full-cache invalidation, in chronological order. -/
def cacheInvalUnmaps (log : List Event) : List Nat :=
  log.filterMap
    (fun e => match e with | .unmapBuf Origin.cacheInval k => some k | _ => none)

/-- Keys unmapped from any call site, in chronological order. -/
def unmapsOf (log : List Event) : List Nat :=
  log.filterMap (fun e => match e with | .unmapBuf _ k => some k | _ => none)

/-- A buffer manager for which every handle resolves to itself as key and every
map attempt succeeds. -/
def bmTotal : BufferManager :=
  { lockDataBuffer := fun h => some h
    mapOk := fun _ => true
    isProtectedBuffer := fun _ => false }

end Hwc

namespace Hwc

/-! ## Helper lemmas -/

open DisplayPlane

/-- Setting a bit with `|||` makes that bit true. -/
theorem testBit_lor_self (m b i : Nat) (hb : b.testBit i = true) :
    (m ||| b).testBit i = true := by
  simp [Nat.testBit_lor, hb]

/-- A mask with a freshly or-ed non-zero single bit is non-zero. -/
theorem lor_ne_zero_of_testBit (m b i : Nat) (hb : b.testBit i = true) :
    m ||| b ≠ 0 := by
  intro h
  have ht : (m ||| b).testBit i = true := testBit_lor_self m b i hb
  rw [h] at ht
  simp [Nat.zero_testBit] at ht

/-- `maskClear` clears the target bit. -/
theorem maskClear_testBit_self (m b i : Nat) (hb : (UINT32_MAX ^^^ b).testBit i = false) :
    (maskClear m b).testBit i = false := by
  simp [maskClear, Nat.testBit_land, hb]

/-- `maskClear` only ever shrinks the mask. -/
theorem maskClear_le (m b : Nat) : maskClear m b ≤ m :=
  Nat.and_le_left

/-- The component-equality test in the setters agrees with equality of rectangles. -/
theorem rect_components_eq (r : Rect) (x y w h : Int) :
    (r.x = x ∧ r.y = y ∧ r.w = w ∧ r.h = h) ↔ r = ⟨x, y, w, h⟩ := by
  cases r
  constructor
  · rintro ⟨rfl, rfl, rfl, rfl⟩
    rfl
  · intro h
    cases h
    exact ⟨rfl, rfl, rfl, rfl⟩

/-! ## Claim C3: transform normalization and dirty bit -/

/-- C3 counterexample: on a freshly constructed plane (stored transform is
identity), `setTransform 45` leaves the stored transform unchanged (still
identity) yet sets the transform dirty bit, refuting "sets the transform dirty
bit if and only if the stored transform value actually changed". -/
theorem claim_c3_counterexample :
    ((DisplayPlane.construct 0 0 0).setTransform 45).mTransform
        = (DisplayPlane.construct 0 0 0).mTransform ∧
    ((DisplayPlane.construct 0 0 0).setTransform 45).mUpdateMasks.testBit 2 = true := by
  constructor
  · decide
  · decide

/-- C3 (amended): `setTransform t` stores `t` when `t` is 90/180/270, stores
identity for any other `t` that differs from the stored value, leaves the stored
value untouched when `t` equals it, and sets the transform dirty bit if and only
if the input `t` differs from the previously stored transform (not: if and only
if the stored value actually changed). -/
theorem claim_c3_thm (s : DisplayPlane) (t : Int) :
    ((s.setTransform t).mTransform =
      if s.mTransform = t then s.mTransform
      else if t = PLANE_TRANSFORM_90 ∨ t = PLANE_TRANSFORM_180 ∨ t = PLANE_TRANSFORM_270
           then t else PLANE_TRANSFORM_0) ∧
    ((s.setTransform t).mUpdateMasks.testBit 2 = decide (s.mTransform ≠ t)) := by
  unfold DisplayPlane.setTransform
  by_cases h : s.mTransform = t
  · rw [if_pos h, if_pos h]
    refine ⟨rfl, ?_⟩
    show (maskClear s.mUpdateMasks PLANE_TRANSFORM_CHANGED).testBit 2 = decide (s.mTransform ≠ t)
    rw [maskClear_testBit_self _ _ _ (by decide)]
    simp [h]
  · rw [if_neg h, if_neg h]
    refine ⟨rfl, ?_⟩
    show (s.mUpdateMasks ||| PLANE_TRANSFORM_CHANGED).testBit 2 = decide (s.mTransform ≠ t)
    rw [testBit_lor_self _ _ _ (by decide)]
    simp [h]

/-! ## Claim C4: double position set -/

/-- C4 counterexample: on a freshly constructed plane the stored position is
(0,0,0,0); calling the position setter with that very rectangle leaves the
position dirty bit clear on the first call, refuting "sets the position dirty
bit on the first call" for every starting state. -/
theorem claim_c4_counterexample :
    ((DisplayPlane.construct 0 0 0).setPosition 0 0 0 0).mUpdateMasks.testBit 0 = false := by
  decide

/-- C4 (amended): provided the rectangle differs from the currently stored
position, calling the position setter twice in succession with the same
rectangle sets the position dirty bit on the first call and clears it on the
second. -/
theorem claim_c4_thm (s : DisplayPlane) (x y w h : Int)
    (hne : s.mPosition ≠ ⟨x, y, w, h⟩) :
    (s.setPosition x y w h).mUpdateMasks.testBit 0 = true ∧
    ((s.setPosition x y w h).setPosition x y w h).mUpdateMasks.testBit 0 = false := by
  have hcond : ¬(s.mPosition.x = x ∧ s.mPosition.y = y ∧ s.mPosition.w = w ∧ s.mPosition.h = h) := by
    rw [rect_components_eq]
    exact hne
  constructor
  · unfold DisplayPlane.setPosition
    rw [if_neg hcond]
    show (s.mUpdateMasks ||| PLANE_POSITION_CHANGED).testBit 0 = true
    exact testBit_lor_self _ _ _ (by decide)
  · unfold DisplayPlane.setPosition
    rw [if_neg hcond]
    rw [if_pos ⟨rfl, rfl, rfl, rfl⟩]
    show (maskClear (s.mUpdateMasks ||| PLANE_POSITION_CHANGED) PLANE_POSITION_CHANGED).testBit 0
        = false
    exact maskClear_testBit_self _ _ _ (by decide)

/-- C4 witness: the amended theorem applied to the freshly constructed plane and
the rectangle (1,2,3,4). -/
theorem claim_c4_witness :
    (DisplayPlane.construct 0 0 0).mPosition ≠ ⟨1, 2, 3, 4⟩ ∧
    (((DisplayPlane.construct 0 0 0).setPosition 1 2 3 4).mUpdateMasks.testBit 0 = true ∧
     (((DisplayPlane.construct 0 0 0).setPosition 1 2 3 4).setPosition 1 2 3 4).mUpdateMasks.testBit 0
        = false) :=
  ⟨by decide, claim_c4_thm (DisplayPlane.construct 0 0 0) 1 2 3 4 (by decide)⟩

/-! ## Claim C9: flip on an uninitialized plane -/

/-- C9 (confirmed): on any plane state that is not initialized, `flip` returns
`false`, whatever the dirty mask holds (the ungated position/crop/transform
setters may have made it non-zero). -/
theorem claim_c9_thm (s : DisplayPlane) (hna : s.mInitialized = false) :
    s.flip = false := by
  unfold DisplayPlane.flip
  rw [hna]
  rfl

/-- C9 witness: a freshly constructed plane on which `setPosition` ran before
initialization has a non-zero dirty mask, is uninitialized, and still reports
`flip = false`. -/
theorem claim_c9_witness :
    ((DisplayPlane.construct 0 0 0).setPosition 1 2 3 4).mInitialized = false ∧
    ((DisplayPlane.construct 0 0 0).setPosition 1 2 3 4).mUpdateMasks ≠ 0 ∧
    ((DisplayPlane.construct 0 0 0).setPosition 1 2 3 4).flip = false :=
  ⟨by decide, by decide,
   claim_c9_thm ((DisplayPlane.construct 0 0 0).setPosition 1 2 3 4) (by decide)⟩

/-! ## Characterization of `updateActiveBuffers` -/

/-- The active-buffer list that `updateActiveBuffers` leaves behind: evict the
front when at capacity, then push the key at the back unless already present. -/
def activeAfter (l : List Nat) (k : Nat) : List Nat :=
  let l1 := if MIN_DATA_BUFFER_COUNT ≤ l.length then l.tail else l
  if l1.contains k then l1 else l1 ++ [k]

/-- The state after `updateActiveBuffers` differs from the input only in the
active-buffer list, which becomes `activeAfter`. -/
theorem updateActiveBuffers_fst (s : DisplayPlane) (k : Nat) :
    (updateActiveBuffers s k).1 = { s with mActiveBuffers := activeAfter s.mActiveBuffers k } := by
  simp only [DisplayPlane.updateActiveBuffers, DisplayPlane.isActiveBuffer, activeAfter]
  by_cases h1 : MIN_DATA_BUFFER_COUNT ≤ s.mActiveBuffers.length
  · by_cases h2 : k ∈ s.mActiveBuffers.tail
    · simp [h1, h2]
    · simp [h1, h2]
  · by_cases h2 : k ∈ s.mActiveBuffers
    · simp [h1, h2]
    · simp [h1, h2]

/-- Behaviour of `activeAfter` when the key is already present and the list has
no duplicates: never a duplicate afterwards, the key stays present, and the
length shrinks by one exactly when the list is at capacity and the key is not
the evicted front entry. -/
theorem activeAfter_readmit (l : List Nat) (k : Nat) (hm : k ∈ l) (hnd : l.Nodup) :
    (activeAfter l k).Nodup ∧ k ∈ activeAfter l k ∧
    (activeAfter l k).length =
      (if l.length < MIN_DATA_BUFFER_COUNT then l.length
       else if l.head? = some k then l.length else l.length - 1) := by
  unfold activeAfter
  by_cases hlen : MIN_DATA_BUFFER_COUNT ≤ l.length
  · cases l with
    | nil => simp [MIN_DATA_BUFFER_COUNT] at hlen
    | cons a t =>
      rw [if_pos hlen]
      simp only [List.tail_cons]
      rcases List.nodup_cons.mp hnd with ⟨hat, hndt⟩
      by_cases hak : a = k
      · subst hak
        have hkt : ¬ t.contains a = true := by simpa using hat
        rw [if_neg hkt]
        refine ⟨?_, ?_, ?_⟩
        · simp [List.nodup_append, hndt, hat]
        · simp
        · have hge : ¬ (a :: t).length < MIN_DATA_BUFFER_COUNT := by omega
          rw [if_neg hge]
          simp
      · have hkt : k ∈ t := by
          rcases List.mem_cons.mp hm with h | h
          · exact absurd h.symm hak
          · exact h
        have hc : t.contains k = true := by simpa using hkt
        rw [if_pos hc]
        refine ⟨hndt, hkt, ?_⟩
        have hge : ¬ (a :: t).length < MIN_DATA_BUFFER_COUNT := by omega
        rw [if_neg hge, if_neg (by simp [hak])]
        simp
  · rw [if_neg hlen]
    have hc : l.contains k = true := by simpa using hm
    rw [if_pos hc]
    exact ⟨hnd, hm, by rw [if_pos (by omega)]⟩

/-! ## Claim C5: re-admission to the Active Set -/

/-- C5 counterexample: on a plane whose Active Set holds [1, 2] (at the
capacity floor), re-admitting the already-present key 2 shrinks the set from 2
entries to 1 (the front entry 1 is evicted unconditionally and 2 is not
re-pushed), refuting "leaves the set size unchanged". -/
theorem claim_c5_counterexample :
    (DisplayPlane.updateActiveBuffers
        { DisplayPlane.construct 0 0 0 with mInitialized := true, mActiveBuffers := [1, 2] }
        2).1.mActiveBuffers = [2] ∧
    ¬ ((DisplayPlane.updateActiveBuffers
        { DisplayPlane.construct 0 0 0 with mInitialized := true, mActiveBuffers := [1, 2] }
        2).1.mActiveBuffers.length
      = ({ DisplayPlane.construct 0 0 0 with mInitialized := true, mActiveBuffers := [1, 2] } : DisplayPlane).mActiveBuffers.length) := by
  constructor
  · decide
  · decide

/-- C5 (amended): admitting an identity already present in a duplicate-free
Active Set never produces a duplicate and keeps the identity present; the size
is unchanged when the set is below `minActiveCount` or when the identity is the
evicted front entry (it is re-pushed), but when the set is at capacity and the
identity is not the front entry, the unconditional front eviction shrinks the
set by one. -/
theorem claim_c5_thm (s : DisplayPlane) (key : Nat)
    (hmem : key ∈ s.mActiveBuffers) (hnd : s.mActiveBuffers.Nodup) :
    (DisplayPlane.updateActiveBuffers s key).1.mActiveBuffers.Nodup ∧
    key ∈ (DisplayPlane.updateActiveBuffers s key).1.mActiveBuffers ∧
    (DisplayPlane.updateActiveBuffers s key).1.mActiveBuffers.length =
      (if s.mActiveBuffers.length < MIN_DATA_BUFFER_COUNT then s.mActiveBuffers.length
       else if s.mActiveBuffers.head? = some key then s.mActiveBuffers.length
       else s.mActiveBuffers.length - 1) := by
  rw [updateActiveBuffers_fst]
  exact activeAfter_readmit s.mActiveBuffers key hmem hnd

/-- C5 witness: the amended theorem applied to the Active Set [2, 1] re-admitting
key 1 (at capacity, key not the front entry: the size drops from 2 to 1). -/
theorem claim_c5_witness :
    1 ∈ ({ DisplayPlane.construct 0 0 0 with mInitialized := true, mActiveBuffers := [2, 1] } : DisplayPlane).mActiveBuffers ∧
    (DisplayPlane.updateActiveBuffers
        { DisplayPlane.construct 0 0 0 with mInitialized := true, mActiveBuffers := [2, 1] }
        1).1.mActiveBuffers.Nodup ∧
    1 ∈ (DisplayPlane.updateActiveBuffers
        { DisplayPlane.construct 0 0 0 with mInitialized := true, mActiveBuffers := [2, 1] }
        1).1.mActiveBuffers ∧
    (DisplayPlane.updateActiveBuffers
        { DisplayPlane.construct 0 0 0 with mInitialized := true, mActiveBuffers := [2, 1] }
        1).1.mActiveBuffers.length =
      (if ({ DisplayPlane.construct 0 0 0 with mInitialized := true, mActiveBuffers := [2, 1] } : DisplayPlane).mActiveBuffers.length < MIN_DATA_BUFFER_COUNT then
         ({ DisplayPlane.construct 0 0 0 with mInitialized := true, mActiveBuffers := [2, 1] } : DisplayPlane).mActiveBuffers.length
       else if ({ DisplayPlane.construct 0 0 0 with mInitialized := true, mActiveBuffers := [2, 1] } : DisplayPlane).mActiveBuffers.head? = some 1 then
         ({ DisplayPlane.construct 0 0 0 with mInitialized := true, mActiveBuffers := [2, 1] } : DisplayPlane).mActiveBuffers.length
       else ({ DisplayPlane.construct 0 0 0 with mInitialized := true, mActiveBuffers := [2, 1] } : DisplayPlane).mActiveBuffers.length - 1) :=
  ⟨by decide,
   claim_c5_thm
     { DisplayPlane.construct 0 0 0 with mInitialized := true, mActiveBuffers := [2, 1] }
     1 (by decide) (by decide)⟩

/-! ## Claim C2: resubmitting the currently bound handle -/

/-- C2 counterexample: a reachable scenario in which the currently bound handle
5 is resubmitted while the position dirty bit is still set. The claim says the
whole pipeline is skipped (no mapper call) regardless of the other dirty bits,
but the call still locks and unlocks the buffer through the buffer manager. -/
theorem claim_c2_counterexample :
    ((DisplayPlane.setDataBuffer bmTotal (((DisplayPlane.setDataBuffer bmTotal ((DisplayPlane.construct 0 0 0).initPlane 2) 5).2.1).setPosition 1 2 3 4) 5).2.2
        = [Event.lockBuf 5, Event.unlockBuf]) ∧
    (((DisplayPlane.setDataBuffer bmTotal ((DisplayPlane.construct 0 0 0).initPlane 2) 5).2.1).setPosition 1 2 3 4).mCurrentDataBuffer = 5 := by
  constructor
  · decide
  · decide

/-- C2 (amended): resubmitting the currently bound non-null handle clears the
buffer dirty bit and skips the whole buffer-update pipeline — no collaborator
call, no cache access, no active-set update, and no state change beyond the bit
clear — provided no other dirty bit remains set (so the cleared mask is zero);
when another dirty bit is set, the pipeline still runs. -/
theorem claim_c2_thm (bm : BufferManager) (s : DisplayPlane) (handle : Nat)
    (hinit : s.mInitialized = true) (hh : handle ≠ 0)
    (hcur : s.mCurrentDataBuffer = handle)
    (hmask : maskClear s.mUpdateMasks PLANE_BUFFER_CHANGED = 0) :
    DisplayPlane.setDataBuffer bm s handle
      = (true, { s with mUpdateMasks := maskClear s.mUpdateMasks PLANE_BUFFER_CHANGED }, []) := by
  subst hcur
  unfold DisplayPlane.setDataBuffer
  rw [hinit]
  simp only [Bool.not_true, Bool.false_eq_true, if_false]
  rw [if_neg hh]
  rw [if_neg (show ¬ s.mCurrentDataBuffer ≠ s.mCurrentDataBuffer by simp)]
  rw [if_pos hmask]

/-- C2 witness: the amended theorem applied to the plane obtained by submitting
handle 5 to a freshly initialized plane, then resubmitting 5. -/
theorem claim_c2_witness :
    (DisplayPlane.setDataBuffer bmTotal ((DisplayPlane.construct 0 0 0).initPlane 2) 5).2.1.mInitialized = true ∧
    (DisplayPlane.setDataBuffer bmTotal ((DisplayPlane.construct 0 0 0).initPlane 2) 5).2.1.mCurrentDataBuffer = 5 ∧
    DisplayPlane.setDataBuffer bmTotal (DisplayPlane.setDataBuffer bmTotal ((DisplayPlane.construct 0 0 0).initPlane 2) 5).2.1 5
      = (true,
         { (DisplayPlane.setDataBuffer bmTotal ((DisplayPlane.construct 0 0 0).initPlane 2) 5).2.1 with
             mUpdateMasks := maskClear (DisplayPlane.setDataBuffer bmTotal ((DisplayPlane.construct 0 0 0).initPlane 2) 5).2.1.mUpdateMasks PLANE_BUFFER_CHANGED },
         []) :=
  ⟨by decide, by decide,
   claim_c2_thm bmTotal (DisplayPlane.setDataBuffer bmTotal ((DisplayPlane.construct 0 0 0).initPlane 2) 5).2.1 5
     (by decide) (by decide) (by decide) (by decide)⟩

/-! ## Claim C1: state after a failed buffer-set operation -/

/-- The buffer-dirty-bit update performed at the top of `setDataBuffer`, before
any resource acquisition is attempted. -/
def bufferMaskUpdate (s : DisplayPlane) (handle : Nat) : Nat :=
  if s.mCurrentDataBuffer ≠ handle then s.mUpdateMasks ||| PLANE_BUFFER_CHANGED
  else maskClear s.mUpdateMasks PLANE_BUFFER_CHANGED

/-- C1 counterexample: an initialized plane with capacity 2 holds buffers 1 and
2 (cache full) and is bound to buffer 2; submitting the new handle 3 whose map
fails returns a failed result, but the prior state is not preserved: the
capacity-overflow invalidation has emptied the Mapping Cache, reset the bound
buffer to none; moreover a lock failure on a fresh plane (handle 7, lock
fails) returns a failed result with the dirty mask already changed. -/
theorem claim_c1_counterexample :
    (DisplayPlane.setDataBuffer ⟨fun h => some h, fun k => !(k == 3), fun _ => false⟩ (DisplayPlane.setDataBuffer ⟨fun h => some h, fun k => !(k == 3), fun _ => false⟩ (DisplayPlane.setDataBuffer ⟨fun h => some h, fun k => !(k == 3), fun _ => false⟩ ((DisplayPlane.construct 0 0 0).initPlane 1) 1).2.1 2).2.1 3).1 = false ∧
    (DisplayPlane.setDataBuffer ⟨fun h => some h, fun k => !(k == 3), fun _ => false⟩ (DisplayPlane.setDataBuffer ⟨fun h => some h, fun k => !(k == 3), fun _ => false⟩ ((DisplayPlane.construct 0 0 0).initPlane 1) 1).2.1 2).2.1.mDataBuffers.length = 2 ∧
    (DisplayPlane.setDataBuffer ⟨fun h => some h, fun k => !(k == 3), fun _ => false⟩ (DisplayPlane.setDataBuffer ⟨fun h => some h, fun k => !(k == 3), fun _ => false⟩ (DisplayPlane.setDataBuffer ⟨fun h => some h, fun k => !(k == 3), fun _ => false⟩ ((DisplayPlane.construct 0 0 0).initPlane 1) 1).2.1 2).2.1 3).2.1.mDataBuffers.length = 0 ∧
    (DisplayPlane.setDataBuffer ⟨fun h => some h, fun k => !(k == 3), fun _ => false⟩ (DisplayPlane.setDataBuffer ⟨fun h => some h, fun k => !(k == 3), fun _ => false⟩ ((DisplayPlane.construct 0 0 0).initPlane 1) 1).2.1 2).2.1.mCurrentDataBuffer = 2 ∧
    (DisplayPlane.setDataBuffer ⟨fun h => some h, fun k => !(k == 3), fun _ => false⟩ (DisplayPlane.setDataBuffer ⟨fun h => some h, fun k => !(k == 3), fun _ => false⟩ (DisplayPlane.setDataBuffer ⟨fun h => some h, fun k => !(k == 3), fun _ => false⟩ ((DisplayPlane.construct 0 0 0).initPlane 1) 1).2.1 2).2.1 3).2.1.mCurrentDataBuffer = 0 ∧
    (DisplayPlane.setDataBuffer ⟨fun _ => none, fun _ => true, fun _ => false⟩ ((DisplayPlane.construct 0 0 0).initPlane 2) 7).1 = false ∧
    (DisplayPlane.setDataBuffer ⟨fun _ => none, fun _ => true, fun _ => false⟩ ((DisplayPlane.construct 0 0 0).initPlane 2) 7).2.1.mUpdateMasks
      ≠ ((DisplayPlane.construct 0 0 0).initPlane 2).mUpdateMasks := by
  refine ⟨?_, ?_, ?_, ?_, ?_, ?_, ?_⟩ <;> decide

/-- C1 (amended): when the buffer-set operation fails with a lock failure or a
map failure it returns a failed result and leaves position, crop, transform,
the other dirty bits and the Active Set untouched, but not all prior state: the
buffer dirty bit has already been updated from the handle comparison; on a map
failure the protected-buffer flag has been refreshed, and if the cache was full
the capacity-overflow invalidation has already emptied the Mapping Cache and
reset the bound buffer identity to none. On a lock failure, and on a map
failure with a non-full cache, the bound identity and the cache are untouched. -/
theorem claim_c1_thm (bm : BufferManager) (s : DisplayPlane) (handle : Nat)
    (hinit : s.mInitialized = true) (hh : handle ≠ 0)
    (hmask : bufferMaskUpdate s handle ≠ 0) :
    (bm.lockDataBuffer handle = none →
       DisplayPlane.setDataBuffer bm s handle
         = (false, { s with mUpdateMasks := bufferMaskUpdate s handle },
            [Event.lockBuf handle])) ∧
    (∀ key, bm.lockDataBuffer handle = some key → bm.mapOk key = false →
       DisplayPlane.kvFind s.mDataBuffers key = none →
       (DisplayPlane.setDataBuffer bm s handle).1 = false ∧
       (DisplayPlane.setDataBuffer bm s handle).2.1 =
         (if s.mCacheCapacity ≤ s.mDataBuffers.length then
            { s with mUpdateMasks := bufferMaskUpdate s handle,
                     mIsProtectedBuffer := bm.isProtectedBuffer key,
                     mDataBuffers := [], mCurrentDataBuffer := 0 }
          else
            { s with mUpdateMasks := bufferMaskUpdate s handle,
                     mIsProtectedBuffer := bm.isProtectedBuffer key })) := by
  unfold DisplayPlane.setDataBuffer
  rw [hinit]
  simp only [Bool.not_true, Bool.false_eq_true, if_false]
  rw [if_neg hh]
  unfold bufferMaskUpdate at hmask ⊢
  rw [if_neg hmask]
  constructor
  · intro hlock
    rw [hlock]
  · intro key hlock hmap hfind
    rw [hlock]
    simp only [hfind]
    simp only [DisplayPlane.mapBuffer, DisplayPlane.invalidateBufferCache, hmap,
      Bool.false_eq_true, if_false]
    by_cases hcap : s.mCacheCapacity ≤ s.mDataBuffers.length
    · simp only [hcap, if_true]
      exact ⟨trivial, trivial⟩
    · simp only [hcap, if_false]
      exact ⟨trivial, trivial⟩

/-- C1 witness: the amended theorem applied to the full-cache map-failure
scenario of the counterexample (capacity 2, cache holding buffers 1 and 2,
bound to 2, submitting handle 3 whose map fails). -/
theorem claim_c1_witness :
    (DisplayPlane.setDataBuffer ⟨fun h => some h, fun k => !(k == 3), fun _ => false⟩ (DisplayPlane.setDataBuffer ⟨fun h => some h, fun k => !(k == 3), fun _ => false⟩ ((DisplayPlane.construct 0 0 0).initPlane 1) 1).2.1 2).2.1.mInitialized = true ∧
    ((DisplayPlane.setDataBuffer ⟨fun h => some h, fun k => !(k == 3), fun _ => false⟩ (DisplayPlane.setDataBuffer ⟨fun h => some h, fun k => !(k == 3), fun _ => false⟩ (DisplayPlane.setDataBuffer ⟨fun h => some h, fun k => !(k == 3), fun _ => false⟩ ((DisplayPlane.construct 0 0 0).initPlane 1) 1).2.1 2).2.1 3).1 = false ∧
     (DisplayPlane.setDataBuffer ⟨fun h => some h, fun k => !(k == 3), fun _ => false⟩ (DisplayPlane.setDataBuffer ⟨fun h => some h, fun k => !(k == 3), fun _ => false⟩ (DisplayPlane.setDataBuffer ⟨fun h => some h, fun k => !(k == 3), fun _ => false⟩ ((DisplayPlane.construct 0 0 0).initPlane 1) 1).2.1 2).2.1 3).2.1 =
       (if (DisplayPlane.setDataBuffer ⟨fun h => some h, fun k => !(k == 3), fun _ => false⟩ (DisplayPlane.setDataBuffer ⟨fun h => some h, fun k => !(k == 3), fun _ => false⟩ ((DisplayPlane.construct 0 0 0).initPlane 1) 1).2.1 2).2.1.mCacheCapacity ≤ (DisplayPlane.setDataBuffer ⟨fun h => some h, fun k => !(k == 3), fun _ => false⟩ (DisplayPlane.setDataBuffer ⟨fun h => some h, fun k => !(k == 3), fun _ => false⟩ ((DisplayPlane.construct 0 0 0).initPlane 1) 1).2.1 2).2.1.mDataBuffers.length then
          { (DisplayPlane.setDataBuffer ⟨fun h => some h, fun k => !(k == 3), fun _ => false⟩ (DisplayPlane.setDataBuffer ⟨fun h => some h, fun k => !(k == 3), fun _ => false⟩ ((DisplayPlane.construct 0 0 0).initPlane 1) 1).2.1 2).2.1 with
              mUpdateMasks := bufferMaskUpdate (DisplayPlane.setDataBuffer ⟨fun h => some h, fun k => !(k == 3), fun _ => false⟩ (DisplayPlane.setDataBuffer ⟨fun h => some h, fun k => !(k == 3), fun _ => false⟩ ((DisplayPlane.construct 0 0 0).initPlane 1) 1).2.1 2).2.1 3,
              mIsProtectedBuffer := false, mDataBuffers := [], mCurrentDataBuffer := 0 }
        else
          { (DisplayPlane.setDataBuffer ⟨fun h => some h, fun k => !(k == 3), fun _ => false⟩ (DisplayPlane.setDataBuffer ⟨fun h => some h, fun k => !(k == 3), fun _ => false⟩ ((DisplayPlane.construct 0 0 0).initPlane 1) 1).2.1 2).2.1 with
              mUpdateMasks := bufferMaskUpdate (DisplayPlane.setDataBuffer ⟨fun h => some h, fun k => !(k == 3), fun _ => false⟩ (DisplayPlane.setDataBuffer ⟨fun h => some h, fun k => !(k == 3), fun _ => false⟩ ((DisplayPlane.construct 0 0 0).initPlane 1) 1).2.1 2).2.1 3,
              mIsProtectedBuffer := false })) :=
  ⟨by decide,
   (claim_c1_thm ⟨fun h => some h, fun k => !(k == 3), fun _ => false⟩
     (DisplayPlane.setDataBuffer ⟨fun h => some h, fun k => !(k == 3), fun _ => false⟩ (DisplayPlane.setDataBuffer ⟨fun h => some h, fun k => !(k == 3), fun _ => false⟩ ((DisplayPlane.construct 0 0 0).initPlane 1) 1).2.1 2).2.1 3
     (by decide) (by decide) (by decide)).2 3 (by decide) (by decide) (by decide)⟩

/-! ## Event-log helper lemmas -/

/-- `queuedOf` distributes over append. -/
theorem queuedOf_append (l1 l2 : List Event) :
    queuedOf (l1 ++ l2) = queuedOf l1 ++ queuedOf l2 := by
  unfold queuedOf
  exact List.filterMap_append l1 l2 _

/-- Unmap events contribute no admissions. -/
theorem queuedOf_unmap_map (o : Origin) (l : List (Nat × Rect)) :
    queuedOf (l.map (fun e => Event.unmapBuf o e.1)) = [] := by
  induction l with
  | nil => rfl
  | cons a t ih =>
    simp only [List.map_cons, queuedOf, List.filterMap_cons]
    exact ih

/-- Unmap events over plain keys contribute no admissions. -/
theorem queuedOf_unmap_map_keys (o : Origin) (l : List Nat) :
    queuedOf (l.map (Event.unmapBuf o)) = [] := by
  induction l with
  | nil => rfl
  | cons a t ih =>
    simp only [List.map_cons, queuedOf, List.filterMap_cons]
    exact ih

/-- The optional eviction event contributes no admission. -/
theorem queuedOf_evict_toList (x : Option Nat) :
    queuedOf ((x.map (Event.unmapBuf Origin.activeEvict)).toList) = [] := by
  cases x <;> rfl

/-! ## `kv` helper lemmas -/

/-- `kvSetCrop` does not change the length. -/
theorem kvSetCrop_length (l : List (Nat × Rect)) (key : Nat) (c : Rect) :
    (DisplayPlane.kvSetCrop l key c).length = l.length := by
  unfold DisplayPlane.kvSetCrop
  exact List.length_map l _

/-- `kvAdd` adds at most one entry. -/
theorem kvAdd_length_le (l : List (Nat × Rect)) (key : Nat) (c : Rect) :
    (DisplayPlane.kvAdd l key c).length ≤ l.length + 1 := by
  unfold DisplayPlane.kvAdd
  split
  · rw [List.length_map]
    omega
  · rw [List.length_append]
    simp

/-! ## `mapBuffer` characterization -/

/-- `mapBuffer` never touches initialization, capacity, mask, active list,
position, source crop or transform. -/
theorem mapBuffer_preserves (bm : BufferManager) (s : DisplayPlane) (key : Nat) :
    (DisplayPlane.mapBuffer bm s key).2.1.mInitialized = s.mInitialized ∧
    (DisplayPlane.mapBuffer bm s key).2.1.mCacheCapacity = s.mCacheCapacity ∧
    (DisplayPlane.mapBuffer bm s key).2.1.mUpdateMasks = s.mUpdateMasks ∧
    (DisplayPlane.mapBuffer bm s key).2.1.mActiveBuffers = s.mActiveBuffers ∧
    (DisplayPlane.mapBuffer bm s key).2.1.mPosition = s.mPosition ∧
    (DisplayPlane.mapBuffer bm s key).2.1.mSrcCrop = s.mSrcCrop ∧
    (DisplayPlane.mapBuffer bm s key).2.1.mTransform = s.mTransform := by
  unfold DisplayPlane.mapBuffer DisplayPlane.invalidateBufferCache
  repeat' split
  all_goals exact ⟨rfl, rfl, rfl, rfl, rfl, rfl, rfl⟩

/-- The data-buffer list after `mapBuffer` on an initialized plane: untouched
(map failure without eviction), an insertion below capacity, an insertion into
the emptied cache (capacity overflow), or emptied (overflow then map failure). -/
theorem mapBuffer_data (bm : BufferManager) (s : DisplayPlane) (key : Nat)
    (hinit : s.mInitialized = true) :
    (DisplayPlane.mapBuffer bm s key).2.1.mDataBuffers = s.mDataBuffers ∨
    ((DisplayPlane.mapBuffer bm s key).2.1.mDataBuffers = DisplayPlane.kvAdd s.mDataBuffers key s.mSrcCrop ∧
      ¬ s.mCacheCapacity ≤ s.mDataBuffers.length) ∨
    (DisplayPlane.mapBuffer bm s key).2.1.mDataBuffers = DisplayPlane.kvAdd [] key s.mSrcCrop ∨
    (DisplayPlane.mapBuffer bm s key).2.1.mDataBuffers = [] := by
  unfold DisplayPlane.mapBuffer DisplayPlane.invalidateBufferCache
  rw [hinit]
  simp only [if_pos rfl]
  by_cases hcap : s.mCacheCapacity ≤ s.mDataBuffers.length
  · rw [if_pos hcap]
    split
    · right; right; left; rfl
    · right; right; right; rfl
  · rw [if_neg hcap]
    split
    · right; left; exact ⟨rfl, hcap⟩
    · left; rfl

/-- `mapBuffer` performs no admissions. -/
theorem mapBuffer_queuedOf (bm : BufferManager) (s : DisplayPlane) (key : Nat) :
    queuedOf (DisplayPlane.mapBuffer bm s key).2.2 = [] := by
  unfold DisplayPlane.mapBuffer DisplayPlane.invalidateBufferCache
  repeat' split
  all_goals simp [queuedOf_append, queuedOf_unmap_map, queuedOf]

/-! ## Active-set helper lemmas -/

/-- `activeAfter` never grows the list beyond the capacity floor. -/
theorem activeAfter_length (l : List Nat) (k : Nat)
    (h : l.length ≤ MIN_DATA_BUFFER_COUNT) :
    (activeAfter l k).length ≤ MIN_DATA_BUFFER_COUNT := by
  have htail : l.tail.length = l.length - 1 := by cases l <;> simp
  simp only [activeAfter, MIN_DATA_BUFFER_COUNT] at h ⊢
  by_cases h1 : 2 ≤ l.length
  · rw [if_pos h1]
    split
    · omega
    · simp only [List.length_append, List.length_cons, List.length_nil]
      omega
  · rw [if_neg h1]
    split
    · omega
    · simp only [List.length_append, List.length_cons, List.length_nil]
      omega

/-- `activeAfter` preserves freedom from duplicates. -/
theorem activeAfter_nodup (l : List Nat) (k : Nat) (h : l.Nodup) :
    (activeAfter l k).Nodup := by
  simp only [activeAfter]
  have htail : l.tail.Nodup := by
    cases l with
    | nil => simp
    | cons a t => exact (List.nodup_cons.mp h).2
  by_cases h1 : MIN_DATA_BUFFER_COUNT ≤ l.length
  · rw [if_pos h1]
    split
    · exact htail
    · next hc =>
      have hc' : k ∉ l.tail := by simpa using hc
      simp [List.nodup_append, htail, hc']
  · rw [if_neg h1]
    split
    · exact h
    · next hc =>
      have hc' : k ∉ l := by simpa using hc
      simp [List.nodup_append, h, hc']

/-- A suffix of a list of admissions stays a suffix through `activeAfter`,
provided the new admissions are appended. -/
theorem activeAfter_suffix (l : List Nat) (k : Nat) (A : List Nat) (h : l <:+ A)
    (q : List Nat)
    (hq : q = (if (if MIN_DATA_BUFFER_COUNT ≤ l.length then l.tail else l).contains k
               then ([] : List Nat) else [k])) :
    activeAfter l k <:+ A ++ q := by
  have htail : l.tail <:+ A := by
    obtain ⟨u, rfl⟩ := h
    cases l with
    | nil => simp
    | cons a t => exact ⟨u ++ [a], by simp⟩
  simp only [activeAfter]
  by_cases h1 : MIN_DATA_BUFFER_COUNT ≤ l.length
  · rw [if_pos h1] at hq ⊢
    split
    · next hc =>
      rw [hq, if_pos hc]
      simpa using htail
    · next hc =>
      rw [hq, if_neg hc]
      obtain ⟨u, hu⟩ := htail
      exact ⟨u, by rw [← List.append_assoc, hu]⟩
  · rw [if_neg h1] at hq ⊢
    split
    · next hc =>
      rw [hq, if_pos hc]
      simpa using h
    · next hc =>
      rw [hq, if_neg hc]
      obtain ⟨u, hu⟩ := h
      exact ⟨u, by rw [← List.append_assoc, hu]⟩

/-- The admissions recorded by `updateActiveBuffers`. -/
theorem updateActiveBuffers_queuedOf (s : DisplayPlane) (key : Nat) :
    queuedOf (DisplayPlane.updateActiveBuffers s key).2 =
      (if (if MIN_DATA_BUFFER_COUNT ≤ s.mActiveBuffers.length then s.mActiveBuffers.tail
           else s.mActiveBuffers).contains key
       then ([] : List Nat) else [key]) := by
  unfold DisplayPlane.updateActiveBuffers DisplayPlane.isActiveBuffer
  by_cases h1 : MIN_DATA_BUFFER_COUNT ≤ s.mActiveBuffers.length
  · rw [if_pos h1, if_pos h1]
    split
    · next hc =>
      rw [if_pos (by simpa using hc)]
      exact queuedOf_evict_toList _
    · next hc =>
      rw [if_neg (by simpa using hc)]
      rw [queuedOf_append]
      rw [queuedOf_evict_toList]
      rfl
  · rw [if_neg h1, if_neg h1]
    split
    · next hc =>
      rw [if_pos (by simpa using hc)]
      rfl
    · next hc =>
      rw [if_neg (by simpa using hc)]
      simp [queuedOf]

/-! ## `setDataBuffer` structural lemmas -/

/-- `setDataBuffer` never touches initialization, capacity, position, source
crop or transform. -/
theorem setDataBuffer_preserves (bm : BufferManager) (s : DisplayPlane) (handle : Nat) :
    (DisplayPlane.setDataBuffer bm s handle).2.1.mInitialized = s.mInitialized ∧
    (DisplayPlane.setDataBuffer bm s handle).2.1.mCacheCapacity = s.mCacheCapacity ∧
    (DisplayPlane.setDataBuffer bm s handle).2.1.mPosition = s.mPosition ∧
    (DisplayPlane.setDataBuffer bm s handle).2.1.mSrcCrop = s.mSrcCrop ∧
    (DisplayPlane.setDataBuffer bm s handle).2.1.mTransform = s.mTransform := by
  unfold DisplayPlane.setDataBuffer
  dsimp only
  repeat' split
  all_goals
    first
      | exact ⟨rfl, rfl, rfl, rfl, rfl⟩
      | exact ⟨(mapBuffer_preserves bm _ _).1, (mapBuffer_preserves bm _ _).2.1,
               (mapBuffer_preserves bm _ _).2.2.2.2.1, (mapBuffer_preserves bm _ _).2.2.2.2.2.1,
               (mapBuffer_preserves bm _ _).2.2.2.2.2.2⟩
      | (rw [updateActiveBuffers_fst]
         exact ⟨(mapBuffer_preserves bm _ _).1, (mapBuffer_preserves bm _ _).2.1,
                (mapBuffer_preserves bm _ _).2.2.2.2.1, (mapBuffer_preserves bm _ _).2.2.2.2.2.1,
                (mapBuffer_preserves bm _ _).2.2.2.2.2.2⟩)
      | (rw [updateActiveBuffers_fst]
         exact ⟨rfl, rfl, rfl, rfl, rfl⟩)

/-- The update mask after `setDataBuffer` is either untouched (guard failures)
or exactly the buffer-dirty-bit update computed at the top of the call. -/
theorem setDataBuffer_mask (bm : BufferManager) (s : DisplayPlane) (handle : Nat) :
    (DisplayPlane.setDataBuffer bm s handle).2.1.mUpdateMasks = s.mUpdateMasks ∨
    (DisplayPlane.setDataBuffer bm s handle).2.1.mUpdateMasks = bufferMaskUpdate s handle := by
  unfold DisplayPlane.setDataBuffer bufferMaskUpdate
  dsimp only
  repeat' split
  all_goals
    first
      | exact Or.inl rfl
      | exact Or.inr rfl
      | exact Or.inr ((mapBuffer_preserves bm _ _).2.2.1)
      | (rw [updateActiveBuffers_fst]
         exact Or.inr ((mapBuffer_preserves bm _ _).2.2.1))
      | (rw [updateActiveBuffers_fst]
         exact Or.inr rfl)

/-- A buffer-set call on an uninitialized plane is a pure failure. -/
theorem setDataBuffer_not_init (bm : BufferManager) (s : DisplayPlane) (handle : Nat)
    (h : s.mInitialized = false) :
    DisplayPlane.setDataBuffer bm s handle = (false, s, []) := by
  unfold DisplayPlane.setDataBuffer
  rw [if_pos (by simp [h])]

/-- Dropping a leading lock event changes no admissions. -/
theorem queuedOf_cons_lock (h : Nat) (l : List Event) :
    queuedOf (Event.lockBuf h :: l) = queuedOf l := by
  simp [queuedOf]

/-- Dropping a leading unlock event changes no admissions. -/
theorem queuedOf_cons_unlock (l : List Event) :
    queuedOf (Event.unlockBuf :: l) = queuedOf l := by
  simp [queuedOf]

/-- An unlock event alone records no admission. -/
theorem queuedOf_unlock_nil : queuedOf [Event.unlockBuf] = [] := rfl

/-- The data-buffer cache after `setDataBuffer` on an initialized plane:
untouched, a crop refresh of an existing entry, an insertion below capacity, or
an insertion into the emptied cache after a capacity-overflow invalidation
(possibly with a map failure leaving it empty). -/
theorem setDataBuffer_data (bm : BufferManager) (s : DisplayPlane) (handle : Nat)
    (hinit : s.mInitialized = true) :
    (DisplayPlane.setDataBuffer bm s handle).2.1.mDataBuffers = s.mDataBuffers ∨
    (∃ key, (DisplayPlane.setDataBuffer bm s handle).2.1.mDataBuffers
        = DisplayPlane.kvSetCrop s.mDataBuffers key s.mSrcCrop) ∨
    (∃ key, (DisplayPlane.setDataBuffer bm s handle).2.1.mDataBuffers
        = DisplayPlane.kvAdd s.mDataBuffers key s.mSrcCrop ∧
        ¬ s.mCacheCapacity ≤ s.mDataBuffers.length) ∨
    (∃ key, (DisplayPlane.setDataBuffer bm s handle).2.1.mDataBuffers
        = DisplayPlane.kvAdd [] key s.mSrcCrop) ∨
    (DisplayPlane.setDataBuffer bm s handle).2.1.mDataBuffers = [] := by
  unfold DisplayPlane.setDataBuffer
  dsimp only
  rw [if_neg (show ¬ (!s.mInitialized) = true by simp [hinit])]
  split
  · exact Or.inl rfl
  generalize (if s.mCurrentDataBuffer ≠ handle then s.mUpdateMasks ||| PLANE_BUFFER_CHANGED
              else maskClear s.mUpdateMasks PLANE_BUFFER_CHANGED) = M
  split
  · exact Or.inl rfl
  split
  · exact Or.inl rfl
  next key hlock =>
  split
  next hfind =>
    have hmd := mapBuffer_data bm
      { s with mUpdateMasks := M, mIsProtectedBuffer := bm.isProtectedBuffer key } key hinit
    split
    next hmapr =>
      rcases hmd with h | ⟨h, hcap⟩ | h | h
      · exact Or.inl h
      · exact Or.inr (Or.inr (Or.inl ⟨key, h, hcap⟩))
      · exact Or.inr (Or.inr (Or.inr (Or.inl ⟨key, h⟩)))
      · exact Or.inr (Or.inr (Or.inr (Or.inr h)))
    next k hmapr =>
      split
      · rw [updateActiveBuffers_fst]
        rcases hmd with h | ⟨h, hcap⟩ | h | h
        · exact Or.inl h
        · exact Or.inr (Or.inr (Or.inl ⟨key, h, hcap⟩))
        · exact Or.inr (Or.inr (Or.inr (Or.inl ⟨key, h⟩)))
        · exact Or.inr (Or.inr (Or.inr (Or.inr h)))
      · rcases hmd with h | ⟨h, hcap⟩ | h | h
        · exact Or.inl h
        · exact Or.inr (Or.inr (Or.inl ⟨key, h, hcap⟩))
        · exact Or.inr (Or.inr (Or.inr (Or.inl ⟨key, h⟩)))
        · exact Or.inr (Or.inr (Or.inr (Or.inr h)))
  next v hfind =>
    split
    · rw [updateActiveBuffers_fst]
      exact Or.inr (Or.inl ⟨key, rfl⟩)
    · exact Or.inr (Or.inl ⟨key, rfl⟩)

/-- The shape of the active-set side of `setDataBuffer` on an initialized
plane: there is an intermediate state with the same active list as the input
such that the call either left the active list alone recording no admission, or
finished with `updateActiveBuffers` on that state. -/
theorem setDataBuffer_activeShape (bm : BufferManager) (s : DisplayPlane) (handle : Nat)
    (hinit : s.mInitialized = true) :
    ∃ t : DisplayPlane, t.mActiveBuffers = s.mActiveBuffers ∧
      (((DisplayPlane.setDataBuffer bm s handle).2.1.mActiveBuffers = s.mActiveBuffers ∧
        queuedOf (DisplayPlane.setDataBuffer bm s handle).2.2 = []) ∨
       (∃ key, (DisplayPlane.setDataBuffer bm s handle).2.1
            = (DisplayPlane.updateActiveBuffers t key).1 ∧
          queuedOf (DisplayPlane.setDataBuffer bm s handle).2.2
            = queuedOf (DisplayPlane.updateActiveBuffers t key).2)) := by
  unfold DisplayPlane.setDataBuffer
  dsimp only
  rw [if_neg (show ¬ (!s.mInitialized) = true by simp [hinit])]
  split
  · exact ⟨s, rfl, Or.inl ⟨rfl, rfl⟩⟩
  generalize (if s.mCurrentDataBuffer ≠ handle then s.mUpdateMasks ||| PLANE_BUFFER_CHANGED
              else maskClear s.mUpdateMasks PLANE_BUFFER_CHANGED) = M
  split
  · exact ⟨s, rfl, Or.inl ⟨rfl, rfl⟩⟩
  split
  · exact ⟨s, rfl, Or.inl ⟨rfl, by simp [queuedOf]⟩⟩
  next key hlock =>
  split
  next hfind =>
    split
    next hmapr =>
      refine ⟨s, rfl, Or.inl ⟨?_, ?_⟩⟩
      · exact (mapBuffer_preserves bm
          { s with mUpdateMasks := M, mIsProtectedBuffer := bm.isProtectedBuffer key } key).2.2.2.1
      · rw [queuedOf_cons_lock, queuedOf_append,
            mapBuffer_queuedOf bm
              { s with mUpdateMasks := M, mIsProtectedBuffer := bm.isProtectedBuffer key } key,
            queuedOf_unlock_nil]
        rfl
    next k hmapr =>
      split
      · refine ⟨_, ?_, Or.inr ⟨k, rfl, ?_⟩⟩
        · exact (mapBuffer_preserves bm
            { s with mUpdateMasks := M, mIsProtectedBuffer := bm.isProtectedBuffer key } key).2.2.2.1
        · rw [queuedOf_cons_lock, queuedOf_append, queuedOf_append,
              mapBuffer_queuedOf bm
                { s with mUpdateMasks := M, mIsProtectedBuffer := bm.isProtectedBuffer key } key,
              queuedOf_unlock_nil]
          rfl
      · next hprog =>
        exact absurd rfl hprog
  next v hfind =>
    split
    · refine ⟨_, ?_, Or.inr ⟨key, rfl, ?_⟩⟩
      · rfl
      · rw [queuedOf_cons_lock, queuedOf_cons_unlock]
    · next hprog =>
      exact absurd rfl hprog

/-! ## Plane invariant and trace lemmas -/

/-- The structural invariant of a plane: the Active Set is bounded by the
capacity floor and duplicate-free, the cache capacity is at least the floor,
and the Mapping Cache is bounded by the capacity. -/
def PlaneInv (s : DisplayPlane) : Prop :=
  s.mActiveBuffers.length ≤ MIN_DATA_BUFFER_COUNT ∧
  s.mActiveBuffers.Nodup ∧
  MIN_DATA_BUFFER_COUNT ≤ s.mCacheCapacity ∧
  s.mDataBuffers.length ≤ s.mCacheCapacity

/-- `invalidateBufferCache` state, as a conditional record. -/
theorem invalidateBufferCache_fst (s : DisplayPlane) :
    (DisplayPlane.invalidateBufferCache s).1
      = if s.mInitialized then { s with mDataBuffers := [], mCurrentDataBuffer := 0 } else s := by
  unfold DisplayPlane.invalidateBufferCache
  split <;> simp_all

/-- `invalidateActiveBuffers` state, as a conditional record. -/
theorem invalidateActiveBuffers_fst (s : DisplayPlane) :
    (DisplayPlane.invalidateActiveBuffers s).1
      = if s.mInitialized then { s with mActiveBuffers := [] } else s := by
  unfold DisplayPlane.invalidateActiveBuffers
  split <;> simp_all

/-- `deinitPlane` preserves the invariant. -/
theorem deinitPlane_inv (s : DisplayPlane) (h : PlaneInv s) :
    PlaneInv (DisplayPlane.deinitPlane s).1 := by
  obtain ⟨h1, h2, h3, h4⟩ := h
  unfold DisplayPlane.deinitPlane
  dsimp only
  refine ⟨?_, ?_, ?_, ?_⟩ <;>
    (repeat' split) <;>
    simp_all [invalidateBufferCache_fst, invalidateActiveBuffers_fst] <;>
    (repeat' split) <;> simp_all

/-- `reset` preserves the invariant. -/
theorem reset_inv (s : DisplayPlane) (h : PlaneInv s) :
    PlaneInv (DisplayPlane.reset s).1 := by
  obtain ⟨h1, h2, h3, h4⟩ := h
  unfold DisplayPlane.reset
  dsimp only
  refine ⟨?_, ?_, ?_, ?_⟩ <;>
    (repeat' split) <;>
    simp_all [invalidateBufferCache_fst, invalidateActiveBuffers_fst] <;>
    (repeat' split) <;> simp_all

/-- The three plain value setters and the bookkeeping setters do not touch the
cache, the active list or the capacity. -/
theorem setters_proj (s : DisplayPlane) (x y w h tr zo : Int) :
    ((s.setPosition x y w h).mActiveBuffers = s.mActiveBuffers ∧
     (s.setPosition x y w h).mDataBuffers = s.mDataBuffers ∧
     (s.setPosition x y w h).mCacheCapacity = s.mCacheCapacity) ∧
    ((s.setSourceCrop x y w h).mActiveBuffers = s.mActiveBuffers ∧
     (s.setSourceCrop x y w h).mDataBuffers = s.mDataBuffers ∧
     (s.setSourceCrop x y w h).mCacheCapacity = s.mCacheCapacity) ∧
    ((s.setTransform tr).mActiveBuffers = s.mActiveBuffers ∧
     (s.setTransform tr).mDataBuffers = s.mDataBuffers ∧
     (s.setTransform tr).mCacheCapacity = s.mCacheCapacity) ∧
    ((s.assignToDevice x).2.mActiveBuffers = s.mActiveBuffers ∧
     (s.assignToDevice x).2.mDataBuffers = s.mDataBuffers ∧
     (s.assignToDevice x).2.mCacheCapacity = s.mCacheCapacity) ∧
    ((s.setZOrder zo).mActiveBuffers = s.mActiveBuffers ∧
     (s.setZOrder zo).mDataBuffers = s.mDataBuffers ∧
     (s.setZOrder zo).mCacheCapacity = s.mCacheCapacity) := by
  unfold DisplayPlane.setPosition DisplayPlane.setSourceCrop DisplayPlane.setTransform
    DisplayPlane.assignToDevice DisplayPlane.setZOrder
  repeat' split
  all_goals exact ⟨⟨rfl, rfl, rfl⟩, ⟨rfl, rfl, rfl⟩, ⟨rfl, rfl, rfl⟩, ⟨rfl, rfl, rfl⟩,
    ⟨rfl, rfl, rfl⟩⟩

/-- `setDataBuffer` preserves the invariant. -/
theorem setDataBuffer_inv (bm : BufferManager) (s : DisplayPlane) (handle : Nat)
    (h : PlaneInv s) : PlaneInv (DisplayPlane.setDataBuffer bm s handle).2.1 := by
  obtain ⟨h1, h2, h3, h4⟩ := h
  by_cases hinit : s.mInitialized = true
  · refine ⟨?_, ?_, ?_, ?_⟩
    · rcases (setDataBuffer_activeShape bm s handle hinit) with ⟨t, ht, ⟨ha, _⟩ | ⟨key, hpost, _⟩⟩
      · rw [ha]; exact h1
      · rw [hpost, updateActiveBuffers_fst]
        show (activeAfter t.mActiveBuffers key).length ≤ MIN_DATA_BUFFER_COUNT
        rw [ht]
        exact activeAfter_length _ _ h1
    · rcases (setDataBuffer_activeShape bm s handle hinit) with ⟨t, ht, ⟨ha, _⟩ | ⟨key, hpost, _⟩⟩
      · rw [ha]; exact h2
      · rw [hpost, updateActiveBuffers_fst]
        show (activeAfter t.mActiveBuffers key).Nodup
        rw [ht]
        exact activeAfter_nodup _ _ h2
    · rw [(setDataBuffer_preserves bm s handle).2.1]
      exact h3
    · rw [(setDataBuffer_preserves bm s handle).2.1]
      rcases setDataBuffer_data bm s handle hinit with hd | ⟨key, hd⟩ | ⟨key, hd, hcap⟩ | ⟨key, hd⟩ | hd
      · rw [hd]; exact h4
      · rw [hd, kvSetCrop_length]; exact h4
      · rw [hd]
        have := kvAdd_length_le s.mDataBuffers key s.mSrcCrop
        omega
      · rw [hd]
        have := kvAdd_length_le [] key s.mSrcCrop
        simp only [List.length_nil] at this
        simp only [MIN_DATA_BUFFER_COUNT] at h3
        omega
      · rw [hd]; simp
  · rw [setDataBuffer_not_init bm s handle (by simpa using hinit)]
    exact ⟨h1, h2, h3, h4⟩

/-- `initPlane` establishes the invariant on a plane with empty structures. -/
theorem initPlane_inv (s : DisplayPlane) (n : Nat)
    (hd : s.mDataBuffers = []) (ha : s.mActiveBuffers = []) :
    PlaneInv (s.initPlane n) := by
  unfold DisplayPlane.initPlane PlaneInv
  dsimp only
  rw [hd, ha]
  refine ⟨by simp, by simp, ?_, by simp⟩
  split
  · exact Nat.le_refl _
  · next hn => simp only [MIN_DATA_BUFFER_COUNT] at *; omega

/-- One step preserves the invariant, provided it is not a re-initialization. -/
theorem stepOp_inv (bm : BufferManager) (s : DisplayPlane) (op : PlaneOp)
    (hop : ∀ n, op ≠ PlaneOp.opInit n) (h : PlaneInv s) :
    PlaneInv (stepOp bm s op).1 := by
  obtain ⟨h1, h2, h3, h4⟩ := h
  cases op with
  | opInit n => exact absurd rfl (hop n)
  | opDeinit => exact deinitPlane_inv s ⟨h1, h2, h3, h4⟩
  | opReset => exact reset_inv s ⟨h1, h2, h3, h4⟩
  | opSetPosition x y w hh =>
    have hp := (setters_proj s x y w hh 0 0).1
    exact ⟨hp.1 ▸ h1, hp.1 ▸ h2, hp.2.2 ▸ h3, by rw [stepOp]; rw [hp.2.1, hp.2.2]; exact h4⟩
  | opSetSourceCrop x y w hh =>
    have hp := (setters_proj s x y w hh 0 0).2.1
    exact ⟨hp.1 ▸ h1, hp.1 ▸ h2, hp.2.2 ▸ h3, by rw [stepOp]; rw [hp.2.1, hp.2.2]; exact h4⟩
  | opSetTransform tr =>
    have hp := (setters_proj s 0 0 0 0 tr 0).2.2.1
    exact ⟨hp.1 ▸ h1, hp.1 ▸ h2, hp.2.2 ▸ h3, by rw [stepOp]; rw [hp.2.1, hp.2.2]; exact h4⟩
  | opSetDataBuffer handle => exact setDataBuffer_inv bm s handle ⟨h1, h2, h3, h4⟩
  | opAssignToDevice dd =>
    have hp := (setters_proj s dd 0 0 0 0 0).2.2.2.1
    exact ⟨hp.1 ▸ h1, hp.1 ▸ h2, hp.2.2 ▸ h3, by rw [stepOp]; rw [hp.2.1, hp.2.2]; exact h4⟩
  | opSetZOrder zo =>
    have hp := (setters_proj s 0 0 0 0 0 zo).2.2.2.2
    exact ⟨hp.1 ▸ h1, hp.1 ▸ h2, hp.2.2 ▸ h3, by rw [stepOp]; rw [hp.2.1, hp.2.2]; exact h4⟩

/-- A whole trace without re-initialization preserves the invariant. -/
theorem runOps_inv (bm : BufferManager) (ops : List PlaneOp) (s : DisplayPlane)
    (hops : noInitOps ops = true) (h : PlaneInv s) :
    PlaneInv (runOps bm s ops).1 := by
  induction ops generalizing s with
  | nil => exact h
  | cons op rest ih =>
    rw [noInitOps, List.all_cons, Bool.and_eq_true] at hops
    have hop : ∀ n, op ≠ PlaneOp.opInit n := by
      intro n hn
      subst hn
      simp at hops
    show PlaneInv (runOps bm (stepOp bm s op).1 rest).1
    exact ih (stepOp bm s op).1 hops.2 (stepOp_inv bm s op hop h)

/-- `updateActiveBuffers` keeps the active list a suffix of the chronological
admission sequence, once its own admissions are appended. -/
theorem updateActiveBuffers_suffix (t : DisplayPlane) (key : Nat) (A : List Nat)
    (h : t.mActiveBuffers <:+ A) :
    (DisplayPlane.updateActiveBuffers t key).1.mActiveBuffers
      <:+ A ++ queuedOf (DisplayPlane.updateActiveBuffers t key).2 := by
  rw [updateActiveBuffers_fst, updateActiveBuffers_queuedOf]
  exact activeAfter_suffix t.mActiveBuffers key A h _ rfl

/-- `deinitPlane` empties or keeps the active list, admitting nothing. -/
theorem deinitPlane_active (s : DisplayPlane) :
    ((DisplayPlane.deinitPlane s).1.mActiveBuffers = s.mActiveBuffers ∨
     (DisplayPlane.deinitPlane s).1.mActiveBuffers = []) ∧
    queuedOf (DisplayPlane.deinitPlane s).2 = [] := by
  unfold DisplayPlane.deinitPlane DisplayPlane.invalidateBufferCache
    DisplayPlane.invalidateActiveBuffers
  dsimp only
  constructor
  · repeat' split
    all_goals simp
  · repeat' split
    all_goals simp [queuedOf_append, queuedOf_unmap_map, queuedOf_unmap_map_keys, queuedOf]

/-- `reset` empties or keeps the active list, admitting nothing. -/
theorem reset_active (s : DisplayPlane) :
    ((DisplayPlane.reset s).1.mActiveBuffers = s.mActiveBuffers ∨
     (DisplayPlane.reset s).1.mActiveBuffers = []) ∧
    queuedOf (DisplayPlane.reset s).2 = [] := by
  unfold DisplayPlane.reset DisplayPlane.invalidateBufferCache
    DisplayPlane.invalidateActiveBuffers
  dsimp only
  constructor
  · repeat' split
    all_goals simp
  · repeat' split
    all_goals simp [queuedOf_append, queuedOf_unmap_map, queuedOf_unmap_map_keys, queuedOf]

/-- No events, no admissions. -/
theorem queuedOf_nil : queuedOf [] = [] := rfl

/-- One step keeps the active list a suffix of the admission log. -/
theorem stepOp_suffix (bm : BufferManager) (s : DisplayPlane) (op : PlaneOp)
    (A : List Nat) (hs : s.mActiveBuffers <:+ A) :
    (stepOp bm s op).1.mActiveBuffers <:+ A ++ queuedOf (stepOp bm s op).2 := by
  cases op with
  | opInit n =>
    show (s.initPlane n).mActiveBuffers <:+ A ++ queuedOf []
    simpa [queuedOf_nil, DisplayPlane.initPlane] using hs
  | opDeinit =>
    rcases deinitPlane_active s with ⟨hact, hq⟩
    show (DisplayPlane.deinitPlane s).1.mActiveBuffers
      <:+ A ++ queuedOf (DisplayPlane.deinitPlane s).2
    rw [hq, List.append_nil]
    rcases hact with h | h
    · rw [h]; exact hs
    · rw [h]; exact List.nil_suffix
  | opReset =>
    rcases reset_active s with ⟨hact, hq⟩
    show (DisplayPlane.reset s).1.mActiveBuffers <:+ A ++ queuedOf (DisplayPlane.reset s).2
    rw [hq, List.append_nil]
    rcases hact with h | h
    · rw [h]; exact hs
    · rw [h]; exact List.nil_suffix
  | opSetPosition x y w hh =>
    simpa [stepOp, (setters_proj s x y w hh 0 0).1.1, queuedOf_nil] using hs
  | opSetSourceCrop x y w hh =>
    simpa [stepOp, (setters_proj s x y w hh 0 0).2.1.1, queuedOf_nil] using hs
  | opSetTransform tr =>
    simpa [stepOp, (setters_proj s 0 0 0 0 tr 0).2.2.1.1, queuedOf_nil] using hs
  | opSetDataBuffer handle =>
    by_cases hinit : s.mInitialized = true
    · show (DisplayPlane.setDataBuffer bm s handle).2.1.mActiveBuffers
        <:+ A ++ queuedOf (DisplayPlane.setDataBuffer bm s handle).2.2
      rcases setDataBuffer_activeShape bm s handle hinit with
        ⟨t, ht, ⟨ha, hq⟩ | ⟨key, hpost, hq⟩⟩
      · rw [ha, hq, List.append_nil]; exact hs
      · rw [hpost, hq]
        exact updateActiveBuffers_suffix t key A (ht ▸ hs)
    · show (DisplayPlane.setDataBuffer bm s handle).2.1.mActiveBuffers
        <:+ A ++ queuedOf (DisplayPlane.setDataBuffer bm s handle).2.2
      rw [setDataBuffer_not_init bm s handle (by simpa using hinit)]
      simpa [queuedOf_nil] using hs
  | opAssignToDevice dd =>
    simpa [stepOp, (setters_proj s dd 0 0 0 0 0).2.2.2.1.1, queuedOf_nil] using hs
  | opSetZOrder zo =>
    simpa [stepOp, (setters_proj s 0 0 0 0 0 zo).2.2.2.2.1, queuedOf_nil] using hs

/-- A trace keeps the active list a suffix of the accumulated admission log. -/
theorem runOps_suffix (bm : BufferManager) (ops : List PlaneOp) (s : DisplayPlane)
    (A : List Nat) (hs : s.mActiveBuffers <:+ A) :
    (runOps bm s ops).1.mActiveBuffers <:+ A ++ queuedOf (runOps bm s ops).2 := by
  induction ops generalizing s A with
  | nil =>
    show s.mActiveBuffers <:+ A ++ queuedOf []
    simpa [queuedOf_nil] using hs
  | cons op rest ih =>
    show (runOps bm (stepOp bm s op).1 rest).1.mActiveBuffers
      <:+ A ++ queuedOf ((stepOp bm s op).2 ++ (runOps bm (stepOp bm s op).1 rest).2)
    rw [queuedOf_append, ← List.append_assoc]
    exact ih (stepOp bm s op).1 (A ++ queuedOf (stepOp bm s op).2)
      (stepOp_suffix bm s op A hs)

/-- On overflow, the event emitted first by `updateActiveBuffers` unmaps the
front (oldest-admitted) entry of the active list. -/
theorem updateActiveBuffers_evict_head (s' : DisplayPlane) (k : Nat)
    (h : MIN_DATA_BUFFER_COUNT ≤ s'.mActiveBuffers.length) :
    (DisplayPlane.updateActiveBuffers s' k).2.head?
      = s'.mActiveBuffers.head?.map (Event.unmapBuf Origin.activeEvict) := by
  unfold DisplayPlane.updateActiveBuffers DisplayPlane.isActiveBuffer
  dsimp only
  rw [if_pos h]
  cases hl : s'.mActiveBuffers with
  | nil => rw [hl] at h; simp [MIN_DATA_BUFFER_COUNT] at h
  | cons a t =>
    split
    · simp
    · simp

/-! ## Claim C6: bounded caches and FIFO eviction -/

/-- C6 counterexample: re-invoking `initialize` (a mutating operation) with a
small buffer count on a plane already holding 3 cached mappings shrinks the
capacity to the floor 2 without draining the cache, so after that operation
completes the Mapping Cache holds 3 > 2 = cacheCapacity entries. -/
theorem claim_c6_counterexample :
    (runOps bmTotal ((DisplayPlane.construct 0 0 0).initPlane 3)
        [PlaneOp.opSetDataBuffer 1, PlaneOp.opSetDataBuffer 2, PlaneOp.opSetDataBuffer 3,
         PlaneOp.opInit 0]).1.mDataBuffers.length = 3 ∧
    (runOps bmTotal ((DisplayPlane.construct 0 0 0).initPlane 3)
        [PlaneOp.opSetDataBuffer 1, PlaneOp.opSetDataBuffer 2, PlaneOp.opSetDataBuffer 3,
         PlaneOp.opInit 0]).1.mCacheCapacity = 2 ∧
    ¬ ((runOps bmTotal ((DisplayPlane.construct 0 0 0).initPlane 3)
        [PlaneOp.opSetDataBuffer 1, PlaneOp.opSetDataBuffer 2, PlaneOp.opSetDataBuffer 3,
         PlaneOp.opInit 0]).1.mDataBuffers.length
      ≤ (runOps bmTotal ((DisplayPlane.construct 0 0 0).initPlane 3)
        [PlaneOp.opSetDataBuffer 1, PlaneOp.opSetDataBuffer 2, PlaneOp.opSetDataBuffer 3,
         PlaneOp.opInit 0]).1.mCacheCapacity) := by
  refine ⟨?_, ?_, ?_⟩ <;> decide

/-- C6 (amended): after any sequence of operations on an initialized plane that
does not re-invoke `initialize`, the Active Set holds at most
`MIN_DATA_BUFFER_COUNT` entries without duplicates and is a suffix of the
chronological admission sequence (so its front is the least-recently-admitted
entry still present), the Mapping Cache holds at most `cacheCapacity` entries,
and whenever the overflow eviction fires, the entry unmapped first is the front
(oldest-admitted) entry of the Active Set. -/
theorem claim_c6_thm (bm : BufferManager) (pi pt pd : Int) (n : Nat) (ops : List PlaneOp)
    (hops : noInitOps ops = true) :
    (runOps bm ((DisplayPlane.construct pi pt pd).initPlane n) ops).1.mActiveBuffers.length
        ≤ MIN_DATA_BUFFER_COUNT ∧
    (runOps bm ((DisplayPlane.construct pi pt pd).initPlane n) ops).1.mDataBuffers.length
        ≤ (runOps bm ((DisplayPlane.construct pi pt pd).initPlane n) ops).1.mCacheCapacity ∧
    (runOps bm ((DisplayPlane.construct pi pt pd).initPlane n) ops).1.mActiveBuffers.Nodup ∧
    (runOps bm ((DisplayPlane.construct pi pt pd).initPlane n) ops).1.mActiveBuffers
        <:+ queuedOf (runOps bm ((DisplayPlane.construct pi pt pd).initPlane n) ops).2 ∧
    (∀ s' k, MIN_DATA_BUFFER_COUNT ≤ s'.mActiveBuffers.length →
       (DisplayPlane.updateActiveBuffers s' k).2.head?
         = s'.mActiveBuffers.head?.map (Event.unmapBuf Origin.activeEvict)) := by
  have hstart : PlaneInv ((DisplayPlane.construct pi pt pd).initPlane n) :=
    initPlane_inv _ n rfl rfl
  have hinv := runOps_inv bm ops _ hops hstart
  have hsuff := runOps_suffix bm ops ((DisplayPlane.construct pi pt pd).initPlane n) []
    (by simp [DisplayPlane.initPlane, DisplayPlane.construct])
  refine ⟨hinv.1, hinv.2.2.2, hinv.2.1, ?_, updateActiveBuffers_evict_head⟩
  simpa using hsuff

/-- C6 witness: the amended theorem applied to a concrete trace of three buffer
submissions and a reset. -/
theorem claim_c6_witness :
    noInitOps [PlaneOp.opSetDataBuffer 1, PlaneOp.opSetDataBuffer 2, PlaneOp.opSetDataBuffer 3,
        PlaneOp.opReset] = true ∧
    (runOps bmTotal ((DisplayPlane.construct 0 0 0).initPlane 2)
        [PlaneOp.opSetDataBuffer 1, PlaneOp.opSetDataBuffer 2, PlaneOp.opSetDataBuffer 3,
         PlaneOp.opReset]).1.mActiveBuffers.length ≤ MIN_DATA_BUFFER_COUNT ∧
    (runOps bmTotal ((DisplayPlane.construct 0 0 0).initPlane 2)
        [PlaneOp.opSetDataBuffer 1, PlaneOp.opSetDataBuffer 2, PlaneOp.opSetDataBuffer 3,
         PlaneOp.opReset]).1.mDataBuffers.length
      ≤ (runOps bmTotal ((DisplayPlane.construct 0 0 0).initPlane 2)
        [PlaneOp.opSetDataBuffer 1, PlaneOp.opSetDataBuffer 2, PlaneOp.opSetDataBuffer 3,
         PlaneOp.opReset]).1.mCacheCapacity ∧
    (runOps bmTotal ((DisplayPlane.construct 0 0 0).initPlane 2)
        [PlaneOp.opSetDataBuffer 1, PlaneOp.opSetDataBuffer 2, PlaneOp.opSetDataBuffer 3,
         PlaneOp.opReset]).1.mActiveBuffers
      <:+ queuedOf (runOps bmTotal ((DisplayPlane.construct 0 0 0).initPlane 2)
        [PlaneOp.opSetDataBuffer 1, PlaneOp.opSetDataBuffer 2, PlaneOp.opSetDataBuffer 3,
         PlaneOp.opReset]).2 :=
  ⟨by decide,
   (claim_c6_thm bmTotal 0 0 0 2 _ (by decide)).1,
   (claim_c6_thm bmTotal 0 0 0 2 _ (by decide)).2.1,
   (claim_c6_thm bmTotal 0 0 0 2 _ (by decide)).2.2.2.1⟩

/-! ## Claim C10: invalidation resets the bound identity -/

/-- The events of `mapBuffer`: the invalidation unmaps (if the cache was full)
followed by the map attempt. -/
theorem mapBuffer_snd (bm : BufferManager) (s : DisplayPlane) (key : Nat) :
    (DisplayPlane.mapBuffer bm s key).2.2 =
      (if s.mCacheCapacity ≤ s.mDataBuffers.length then (DisplayPlane.invalidateBufferCache s).2
       else []) ++ [Event.mapTry key] := by
  unfold DisplayPlane.mapBuffer
  dsimp only
  repeat' split
  all_goals rfl

/-- On a changed, non-null handle, `setDataBuffer` stores exactly the or-ed
buffer dirty bit in the mask. -/
theorem setDataBuffer_mask_changed (bm : BufferManager) (s : DisplayPlane) (handle : Nat)
    (hinit : s.mInitialized = true) (hh : handle ≠ 0)
    (hch : s.mCurrentDataBuffer ≠ handle) :
    (DisplayPlane.setDataBuffer bm s handle).2.1.mUpdateMasks
      = s.mUpdateMasks ||| PLANE_BUFFER_CHANGED := by
  unfold DisplayPlane.setDataBuffer
  dsimp only
  rw [if_neg (show ¬ (!s.mInitialized) = true by simp [hinit]), if_neg hh, if_pos hch,
      if_neg (lor_ne_zero_of_testBit s.mUpdateMasks PLANE_BUFFER_CHANGED 3 (by decide))]
  repeat' split
  all_goals
    first
      | rfl
      | exact (mapBuffer_preserves bm _ _).2.2.1
      | (rw [updateActiveBuffers_fst]
         exact (mapBuffer_preserves bm _ _).2.2.1)
      | rw [updateActiveBuffers_fst]

/-- On a changed, non-null handle whose key misses the cache, `setDataBuffer`
asks the buffer manager for a fresh mapping. -/
theorem setDataBuffer_mapTry (bm : BufferManager) (s : DisplayPlane) (handle key : Nat)
    (hinit : s.mInitialized = true) (hh : handle ≠ 0)
    (hch : s.mCurrentDataBuffer ≠ handle)
    (hlock : bm.lockDataBuffer handle = some key)
    (hfind : DisplayPlane.kvFind s.mDataBuffers key = none) :
    Event.mapTry key ∈ (DisplayPlane.setDataBuffer bm s handle).2.2 := by
  unfold DisplayPlane.setDataBuffer
  dsimp only
  rw [if_neg (show ¬ (!s.mInitialized) = true by simp [hinit]), if_neg hh, if_pos hch,
      if_neg (lor_ne_zero_of_testBit s.mUpdateMasks PLANE_BUFFER_CHANGED 3 (by decide)),
      hlock]
  dsimp only
  rw [hfind]
  dsimp only
  repeat' split
  all_goals simp [mapBuffer_snd, List.mem_append]

/-- C10 (confirmed): every full-cache invalidation resets the bound buffer
identity to none and empties the cache (`deinitialize` and, when it drains a
non-empty cache, `reset` do the same), so a subsequent `setDataBuffer` with any
previously bound non-null handle is treated as a buffer change: the buffer dirty
bit is set and a fresh mapping is requested from the buffer manager (a cache
miss, not an unchanged resubmission). -/
theorem claim_c10_thm (bm : BufferManager) (s : DisplayPlane) (handle key : Nat)
    (hinit : s.mInitialized = true) (hh : handle ≠ 0)
    (hlock : bm.lockDataBuffer handle = some key) :
    (DisplayPlane.invalidateBufferCache s).1.mCurrentDataBuffer = 0 ∧
    (DisplayPlane.invalidateBufferCache s).1.mDataBuffers = [] ∧
    (DisplayPlane.deinitPlane s).1.mCurrentDataBuffer = 0 ∧
    (s.mDataBuffers ≠ [] → (DisplayPlane.reset s).1.mCurrentDataBuffer = 0) ∧
    (DisplayPlane.setDataBuffer bm (DisplayPlane.invalidateBufferCache s).1
        handle).2.1.mUpdateMasks.testBit 3 = true ∧
    Event.mapTry key ∈ (DisplayPlane.setDataBuffer bm (DisplayPlane.invalidateBufferCache s).1
        handle).2.2 := by
  have hs' : (DisplayPlane.invalidateBufferCache s).1
      = { s with mDataBuffers := [], mCurrentDataBuffer := 0 } := by
    rw [invalidateBufferCache_fst, if_pos hinit]
  refine ⟨by rw [hs'], by rw [hs'], rfl, ?_, ?_, ?_⟩
  · intro hne
    unfold DisplayPlane.reset
    dsimp only
    have hlen : s.mDataBuffers.length > 0 := List.length_pos.mpr hne
    rw [if_pos hlen]
    split
    · rw [invalidateActiveBuffers_fst]
      rw [hs']
      simp [hinit]
    · rw [hs']
  · rw [hs']
    rw [setDataBuffer_mask_changed bm
          { s with mDataBuffers := [], mCurrentDataBuffer := 0 } handle hinit hh
          (Ne.symm hh)]
    exact testBit_lor_self _ _ _ (by decide)
  · rw [hs']
    exact setDataBuffer_mapTry bm
      { s with mDataBuffers := [], mCurrentDataBuffer := 0 } handle key hinit hh
      (Ne.symm hh) hlock rfl

/-- C10 witness: the theorem applied to a plane holding buffers 1 and 2 bound
to 2, with the identity buffer manager and the previously bound handle 2. -/
theorem claim_c10_witness :
    (DisplayPlane.setDataBuffer bmTotal (DisplayPlane.setDataBuffer bmTotal ((DisplayPlane.construct 0 0 0).initPlane 2) 1).2.1 2).2.1.mInitialized = true ∧
    (DisplayPlane.invalidateBufferCache (DisplayPlane.setDataBuffer bmTotal (DisplayPlane.setDataBuffer bmTotal ((DisplayPlane.construct 0 0 0).initPlane 2) 1).2.1 2).2.1).1.mCurrentDataBuffer = 0 ∧
    (DisplayPlane.invalidateBufferCache (DisplayPlane.setDataBuffer bmTotal (DisplayPlane.setDataBuffer bmTotal ((DisplayPlane.construct 0 0 0).initPlane 2) 1).2.1 2).2.1).1.mDataBuffers = [] ∧
    (DisplayPlane.setDataBuffer bmTotal (DisplayPlane.invalidateBufferCache (DisplayPlane.setDataBuffer bmTotal (DisplayPlane.setDataBuffer bmTotal ((DisplayPlane.construct 0 0 0).initPlane 2) 1).2.1 2).2.1).1 2).2.1.mUpdateMasks.testBit 3 = true ∧
    Event.mapTry 2 ∈ (DisplayPlane.setDataBuffer bmTotal (DisplayPlane.invalidateBufferCache (DisplayPlane.setDataBuffer bmTotal (DisplayPlane.setDataBuffer bmTotal ((DisplayPlane.construct 0 0 0).initPlane 2) 1).2.1 2).2.1).1 2).2.2 :=
  ⟨by decide,
   (claim_c10_thm bmTotal _ 2 2 (by decide) (by decide) rfl).1,
   (claim_c10_thm bmTotal _ 2 2 (by decide) (by decide) rfl).2.1,
   (claim_c10_thm bmTotal _ 2 2 (by decide) (by decide) rfl).2.2.2.2.1,
   (claim_c10_thm bmTotal _ 2 2 (by decide) (by decide) rfl).2.2.2.2.2⟩

/-! ## Mask-width invariant -/

/-- Or-ing two 4-bit masks stays within 4 bits. -/
theorem lor_lt_sixteen : ∀ m < 16, ∀ b < 16, (m ||| b) < 16 := by decide

/-- Clearing bits keeps the mask within 4 bits. -/
theorem maskClear_lt (m b : Nat) (hm : m < 16) : maskClear m b < 16 :=
  Nat.lt_of_le_of_lt (maskClear_le m b) hm

/-- `deinitPlane` does not touch the mask. -/
theorem deinitPlane_mask (s : DisplayPlane) :
    (DisplayPlane.deinitPlane s).1.mUpdateMasks = s.mUpdateMasks := by
  unfold DisplayPlane.deinitPlane DisplayPlane.invalidateBufferCache
    DisplayPlane.invalidateActiveBuffers
  dsimp only
  repeat' split
  all_goals rfl

/-- `reset` does not touch the mask. -/
theorem reset_mask (s : DisplayPlane) :
    (DisplayPlane.reset s).1.mUpdateMasks = s.mUpdateMasks := by
  unfold DisplayPlane.reset DisplayPlane.invalidateBufferCache
    DisplayPlane.invalidateActiveBuffers
  dsimp only
  repeat' split
  all_goals rfl

/-- Every operation keeps the dirty mask within its four bits. -/
theorem stepOp_maskLt (bm : BufferManager) (s : DisplayPlane) (op : PlaneOp)
    (h : s.mUpdateMasks < 16) : (stepOp bm s op).1.mUpdateMasks < 16 := by
  cases op with
  | opInit n => exact h
  | opDeinit => rw [show (stepOp bm s PlaneOp.opDeinit).1 = (DisplayPlane.deinitPlane s).1 from rfl,
      deinitPlane_mask]; exact h
  | opReset => rw [show (stepOp bm s PlaneOp.opReset).1 = (DisplayPlane.reset s).1 from rfl,
      reset_mask]; exact h
  | opSetPosition x y w hh =>
    show (s.setPosition x y w hh).mUpdateMasks < 16
    unfold DisplayPlane.setPosition
    split
    · exact maskClear_lt _ _ h
    · exact lor_lt_sixteen _ h _ (by decide)
  | opSetSourceCrop x y w hh =>
    show (s.setSourceCrop x y w hh).mUpdateMasks < 16
    unfold DisplayPlane.setSourceCrop
    split
    · exact maskClear_lt _ _ h
    · exact lor_lt_sixteen _ h _ (by decide)
  | opSetTransform tr =>
    show (s.setTransform tr).mUpdateMasks < 16
    unfold DisplayPlane.setTransform
    split
    · exact maskClear_lt _ _ h
    · exact lor_lt_sixteen _ h _ (by decide)
  | opSetDataBuffer handle =>
    show (DisplayPlane.setDataBuffer bm s handle).2.1.mUpdateMasks < 16
    rcases setDataBuffer_mask bm s handle with hm | hm
    · rw [hm]; exact h
    · rw [hm]
      unfold bufferMaskUpdate
      split
      · exact lor_lt_sixteen _ h _ (by decide)
      · exact maskClear_lt _ _ h
  | opAssignToDevice dd =>
    show ((s.assignToDevice dd).2).mUpdateMasks < 16
    unfold DisplayPlane.assignToDevice
    split
    · exact h
    · exact h
  | opSetZOrder zo => exact h

/-- A whole trace keeps the dirty mask within its four bits. -/
theorem runOps_maskLt (bm : BufferManager) (ops : List PlaneOp) (s : DisplayPlane)
    (h : s.mUpdateMasks < 16) : (runOps bm s ops).1.mUpdateMasks < 16 := by
  induction ops generalizing s with
  | nil => exact h
  | cons op rest ih =>
    show (runOps bm (stepOp bm s op).1 rest).1.mUpdateMasks < 16
    exact ih (stepOp bm s op).1 (stepOp_maskLt bm s op h)

/-! ## Claim C8: flip as the OR of the dirty bits -/

/-- C8 counterexample: `initialize` does not clear the dirty mask, and the
position setter is ungated, so a plane that got `setPosition` before
`initialize` reports `flip = true` immediately after `initialize()`, refuting
"false immediately after initialize()". -/
theorem claim_c8_counterexample :
    DisplayPlane.flip (((DisplayPlane.construct 0 0 0).setPosition 1 2 3 4).initPlane 2)
      = true := by
  decide

/-- C8 (amended): on every reachable state, `flip` equals initialized AND the
logical OR of the four dirty bits; it is false immediately after `initialize`
on a freshly constructed plane (`initialize` itself does not clear the mask, so
ungated setter calls made before initialization survive it); it is false
whenever the mask is zero; and it becomes true after any single successful
change to position, crop, transform, or buffer on an initialized plane. -/
theorem claim_c8_thm (bm : BufferManager) (pi pt pd : Int) (n : Nat) (ops : List PlaneOp)
    (s : DisplayPlane) (x y w h tr : Int) (handle : Nat) :
    (DisplayPlane.flip ((DisplayPlane.construct pi pt pd).initPlane n) = false) ∧
    (DisplayPlane.flip (runOps bm (DisplayPlane.construct pi pt pd) ops).1
      = ((runOps bm (DisplayPlane.construct pi pt pd) ops).1.mInitialized &&
         ((runOps bm (DisplayPlane.construct pi pt pd) ops).1.mUpdateMasks.testBit 0 ||
          (runOps bm (DisplayPlane.construct pi pt pd) ops).1.mUpdateMasks.testBit 1 ||
          (runOps bm (DisplayPlane.construct pi pt pd) ops).1.mUpdateMasks.testBit 2 ||
          (runOps bm (DisplayPlane.construct pi pt pd) ops).1.mUpdateMasks.testBit 3))) ∧
    (s.mUpdateMasks = 0 → DisplayPlane.flip s = false) ∧
    (s.mInitialized = true → s.mPosition ≠ ⟨x, y, w, h⟩ →
       DisplayPlane.flip (s.setPosition x y w h) = true) ∧
    (s.mInitialized = true → s.mSrcCrop ≠ ⟨x, y, w, h⟩ →
       DisplayPlane.flip (s.setSourceCrop x y w h) = true) ∧
    (s.mInitialized = true → s.mTransform ≠ tr →
       DisplayPlane.flip (s.setTransform tr) = true) ∧
    (s.mInitialized = true → handle ≠ 0 → s.mCurrentDataBuffer ≠ handle →
       (DisplayPlane.setDataBuffer bm s handle).1 = true →
       DisplayPlane.flip (DisplayPlane.setDataBuffer bm s handle).2.1 = true) := by
  have key : ∀ m : Nat, m < 16 →
      ((if m = 0 then false else true) : Bool)
        = (m.testBit 0 || m.testBit 1 || m.testBit 2 || m.testBit 3) := by decide
  refine ⟨rfl, ?_, ?_, ?_, ?_, ?_, ?_⟩
  · have hm : (runOps bm (DisplayPlane.construct pi pt pd) ops).1.mUpdateMasks < 16 :=
      runOps_maskLt bm ops _ (by simp [DisplayPlane.construct])
    unfold DisplayPlane.flip
    cases hin : (runOps bm (DisplayPlane.construct pi pt pd) ops).1.mInitialized
    · simp
    · simp only [Bool.not_true, Bool.false_eq_true, if_false, Bool.true_and]
      exact key _ hm
  · intro hz
    unfold DisplayPlane.flip
    rw [hz]
    simp
  · intro hinit hne
    have hcond : ¬(s.mPosition.x = x ∧ s.mPosition.y = y ∧ s.mPosition.w = w ∧
        s.mPosition.h = h) := by
      rw [rect_components_eq]; exact hne
    unfold DisplayPlane.setPosition
    rw [if_neg hcond]
    unfold DisplayPlane.flip
    dsimp only
    rw [hinit]
    simp only [Bool.not_true, Bool.false_eq_true, if_false]
    rw [if_neg (lor_ne_zero_of_testBit s.mUpdateMasks PLANE_POSITION_CHANGED 0 (by decide))]
  · intro hinit hne
    have hcond : ¬(s.mSrcCrop.x = x ∧ s.mSrcCrop.y = y ∧ s.mSrcCrop.w = w ∧
        s.mSrcCrop.h = h) := by
      rw [rect_components_eq]; exact hne
    unfold DisplayPlane.setSourceCrop
    rw [if_neg hcond]
    unfold DisplayPlane.flip
    dsimp only
    rw [hinit]
    simp only [Bool.not_true, Bool.false_eq_true, if_false]
    rw [if_neg (lor_ne_zero_of_testBit s.mUpdateMasks PLANE_SOURCE_CROP_CHANGED 1 (by decide))]
  · intro hinit hne
    unfold DisplayPlane.setTransform
    rw [if_neg hne]
    unfold DisplayPlane.flip
    dsimp only
    rw [hinit]
    simp only [Bool.not_true, Bool.false_eq_true, if_false]
    rw [if_neg (lor_ne_zero_of_testBit s.mUpdateMasks PLANE_TRANSFORM_CHANGED 2 (by decide))]
  · intro hinit hh hch _hret
    unfold DisplayPlane.flip
    rw [(setDataBuffer_preserves bm s handle).1, hinit]
    simp only [Bool.not_true, Bool.false_eq_true, if_false]
    rw [setDataBuffer_mask_changed bm s handle hinit hh hch]
    rw [if_neg (lor_ne_zero_of_testBit s.mUpdateMasks PLANE_BUFFER_CHANGED 3 (by decide))]

/-- C8 witness: the amended theorem applied to a freshly initialized plane and
a genuine position change. -/
theorem claim_c8_witness :
    ((DisplayPlane.construct 0 0 0).initPlane 2).mInitialized = true ∧
    ((DisplayPlane.construct 0 0 0).initPlane 2).mPosition ≠ ⟨1, 2, 3, 4⟩ ∧
    DisplayPlane.flip (((DisplayPlane.construct 0 0 0).initPlane 2).setPosition 1 2 3 4)
      = true :=
  ⟨by decide, by decide,
   (claim_c8_thm bmTotal 0 0 0 2 [] ((DisplayPlane.construct 0 0 0).initPlane 2) 1 2 3 4 0
     5).2.2.2.1 (by decide) (by decide)⟩

/-! ## Fresh-insertion lemmas for the cache-eviction claim -/

/-- `cacheInvalUnmaps` distributes over append. -/
theorem cacheInvalUnmaps_append (l1 l2 : List Event) :
    cacheInvalUnmaps (l1 ++ l2) = cacheInvalUnmaps l1 ++ cacheInvalUnmaps l2 := by
  unfold cacheInvalUnmaps
  exact List.filterMap_append l1 l2 _

/-- The invalidation events unmap exactly the cached keys, in order. -/
theorem cacheInvalUnmaps_unmap_map (l : List (Nat × Rect)) :
    cacheInvalUnmaps (l.map (fun e => Event.unmapBuf Origin.cacheInval e.1))
      = l.map (fun e => e.1) := by
  induction l with
  | nil => rfl
  | cons a t ih => simpa [cacheInvalUnmaps, List.filterMap_cons] using ih

/-- `updateActiveBuffers` performs no cache-invalidation unmap. -/
theorem cacheInvalUnmaps_updateActive (t : DisplayPlane) (k : Nat) :
    cacheInvalUnmaps (DisplayPlane.updateActiveBuffers t k).2 = [] := by
  unfold DisplayPlane.updateActiveBuffers DisplayPlane.isActiveBuffer
  dsimp only
  repeat' split
  all_goals
    first
      | rfl
      | (cases t.mActiveBuffers.head? <;>
          simp [cacheInvalUnmaps, cacheInvalUnmaps_append, List.filterMap_cons])

/-- `kvAdd` appends when the key is absent. -/
theorem kvAdd_of_find_none (l : List (Nat × Rect)) (k : Nat) (c : Rect)
    (h : DisplayPlane.kvFind l k = none) :
    DisplayPlane.kvAdd l k c = l ++ [(k, c)] := by
  unfold DisplayPlane.kvAdd
  rw [if_neg ?hn]
  case hn =>
    intro hany
    rw [List.any_eq_true] at hany
    obtain ⟨e, he, hek⟩ := hany
    exact (List.find?_eq_none.mp h e he) hek

/-- `kvFind` over an append. -/
theorem kvFind_append (l1 l2 : List (Nat × Rect)) (k : Nat) :
    DisplayPlane.kvFind (l1 ++ l2) k
      = (DisplayPlane.kvFind l1 k).or (DisplayPlane.kvFind l2 k) := by
  unfold DisplayPlane.kvFind
  exact List.find?_append

/-- A singleton entry with a different key is not found. -/
theorem kvFind_singleton_ne (k j : Nat) (c : Rect) (h : j ≠ k) :
    DisplayPlane.kvFind [(k, c)] j = none := by
  unfold DisplayPlane.kvFind
  simp [List.find?_cons, Ne.symm h]

/-- A key outside a key-list is not found in the paired cache built from it. -/
theorem kvFind_map_none (l : List Nat) (c : Rect) (k : Nat) (h : k ∉ l) :
    DisplayPlane.kvFind (l.map (fun j => (j, c))) k = none := by
  induction l with
  | nil => rfl
  | cons a t ih =>
    simp only [List.mem_cons, not_or] at h
    unfold DisplayPlane.kvFind at ih ⊢
    simp [List.find?_cons, Ne.symm h.1, ih h.2]

/-- `runOps` over an append of traces. -/
theorem runOps_append (bm : BufferManager) (s : DisplayPlane) (l1 l2 : List PlaneOp) :
    runOps bm s (l1 ++ l2)
      = ((runOps bm (runOps bm s l1).1 l2).1,
         (runOps bm s l1).2 ++ (runOps bm (runOps bm s l1).1 l2).2) := by
  induction l1 generalizing s with
  | nil => simp [runOps]
  | cons op rest ih =>
    have h1 : runOps bm s ((op :: rest) ++ l2)
        = ((runOps bm (stepOp bm s op).1 (rest ++ l2)).1,
           (stepOp bm s op).2 ++ (runOps bm (stepOp bm s op).1 (rest ++ l2)).2) := rfl
    have h2 : (runOps bm s (op :: rest)).1 = (runOps bm (stepOp bm s op).1 rest).1 := rfl
    have h3 : (runOps bm s (op :: rest)).2
        = (stepOp bm s op).2 ++ (runOps bm (stepOp bm s op).1 rest).2 := rfl
    rw [h1, ih (stepOp bm s op).1, h2, h3, List.append_assoc]

/-- A lock event is not a cache-invalidation unmap. -/
theorem cacheInvalUnmaps_cons_lock (h : Nat) (l : List Event) :
    cacheInvalUnmaps (Event.lockBuf h :: l) = cacheInvalUnmaps l := by
  simp [cacheInvalUnmaps]

/-- A map attempt is not a cache-invalidation unmap. -/
theorem cacheInvalUnmaps_cons_mapTry (k : Nat) (l : List Event) :
    cacheInvalUnmaps (Event.mapTry k :: l) = cacheInvalUnmaps l := by
  simp [cacheInvalUnmaps]

/-- An unlock event is not a cache-invalidation unmap. -/
theorem cacheInvalUnmaps_cons_unlock (l : List Event) :
    cacheInvalUnmaps (Event.unlockBuf :: l) = cacheInvalUnmaps l := by
  simp [cacheInvalUnmaps]

/-- One fresh below-capacity insertion with the identity buffer manager:
appends the pair to the cache, binds the handle, performs no
cache-invalidation unmap, and leaves initialization, capacity and crop alone. -/
theorem setDataBuffer_freshInsert (s : DisplayPlane) (k : Nat)
    (hinit : s.mInitialized = true) (hk : k ≠ 0) (hch : s.mCurrentDataBuffer ≠ k)
    (hfind : DisplayPlane.kvFind s.mDataBuffers k = none)
    (hcap : ¬ s.mCacheCapacity ≤ s.mDataBuffers.length) :
    (DisplayPlane.setDataBuffer bmTotal s k).2.1.mDataBuffers
        = s.mDataBuffers ++ [(k, s.mSrcCrop)] ∧
    (DisplayPlane.setDataBuffer bmTotal s k).2.1.mCurrentDataBuffer = k ∧
    (DisplayPlane.setDataBuffer bmTotal s k).2.1.mInitialized = true ∧
    (DisplayPlane.setDataBuffer bmTotal s k).2.1.mCacheCapacity = s.mCacheCapacity ∧
    (DisplayPlane.setDataBuffer bmTotal s k).2.1.mSrcCrop = s.mSrcCrop ∧
    cacheInvalUnmaps (DisplayPlane.setDataBuffer bmTotal s k).2.2 = [] := by
  unfold DisplayPlane.setDataBuffer
  dsimp only
  rw [if_neg (show ¬ (!s.mInitialized) = true by simp [hinit]), if_neg hk, if_pos hch,
      if_neg (lor_ne_zero_of_testBit s.mUpdateMasks PLANE_BUFFER_CHANGED 3 (by decide))]
  simp only [bmTotal]
  try dsimp only
  rw [hfind]
  try dsimp only
  unfold DisplayPlane.mapBuffer
  try dsimp only
  rw [if_neg hcap]
  rw [if_pos rfl]
  try dsimp only
  rw [if_pos (show DisplayPlane.programDataBuffer k = true from rfl)]
  try dsimp only
  rw [updateActiveBuffers_fst]
  refine ⟨?_, rfl, hinit, rfl, rfl, ?_⟩
  · exact kvAdd_of_find_none s.mDataBuffers k s.mSrcCrop hfind
  · rw [cacheInvalUnmaps_cons_lock, List.nil_append, cacheInvalUnmaps_append,
        cacheInvalUnmaps_append, cacheInvalUnmaps_updateActive]
    rfl

/-- One fresh at-capacity insertion with the identity buffer manager: the
full-cache invalidation unmaps every cached key exactly once (and nothing
else from that call site), then the new pair becomes the only cache entry. -/
theorem setDataBuffer_overflowInsert (s : DisplayPlane) (k : Nat)
    (hinit : s.mInitialized = true) (hk : k ≠ 0) (hch : s.mCurrentDataBuffer ≠ k)
    (hfind : DisplayPlane.kvFind s.mDataBuffers k = none)
    (hcap : s.mCacheCapacity ≤ s.mDataBuffers.length) :
    (DisplayPlane.setDataBuffer bmTotal s k).2.1.mDataBuffers = [(k, s.mSrcCrop)] ∧
    cacheInvalUnmaps (DisplayPlane.setDataBuffer bmTotal s k).2.2
        = s.mDataBuffers.map (fun e => e.1) := by
  unfold DisplayPlane.setDataBuffer
  dsimp only
  rw [if_neg (show ¬ (!s.mInitialized) = true by simp [hinit]), if_neg hk, if_pos hch,
      if_neg (lor_ne_zero_of_testBit s.mUpdateMasks PLANE_BUFFER_CHANGED 3 (by decide))]
  simp only [bmTotal]
  try dsimp only
  rw [hfind]
  try dsimp only
  unfold DisplayPlane.mapBuffer DisplayPlane.invalidateBufferCache
  try dsimp only
  rw [if_pos hcap, if_pos (show s.mInitialized = true from hinit)]
  try dsimp only
  rw [if_pos rfl]
  try dsimp only
  rw [if_pos (show DisplayPlane.programDataBuffer k = true from rfl)]
  try dsimp only
  rw [updateActiveBuffers_fst]
  refine ⟨?_, ?_⟩
  · show DisplayPlane.kvAdd [] k s.mSrcCrop = [(k, s.mSrcCrop)]
    rw [kvAdd_of_find_none [] k s.mSrcCrop rfl]
    rfl
  · rw [cacheInvalUnmaps_cons_lock, cacheInvalUnmaps_append, cacheInvalUnmaps_append,
        cacheInvalUnmaps_append, cacheInvalUnmaps_updateActive, cacheInvalUnmaps_unmap_map]
    simp [cacheInvalUnmaps]

/-- Filling an initialized cache with fresh distinct non-null keys that fit
below capacity: the pairs are appended in order, no cache-invalidation unmap
occurs, the bookkeeping fields survive, and the bound buffer ends up either
untouched (empty key list) or one of the keys. -/
theorem insertRun_fill (keys : List Nat) (s : DisplayPlane)
    (hinit : s.mInitialized = true)
    (hnd : keys.Nodup) (h0 : (0 : Nat) ∉ keys)
    (hfresh : ∀ k ∈ keys, DisplayPlane.kvFind s.mDataBuffers k = none)
    (hcur : s.mCurrentDataBuffer ∉ keys)
    (hlen : keys.length + s.mDataBuffers.length ≤ s.mCacheCapacity) :
    (runOps bmTotal s (keys.map PlaneOp.opSetDataBuffer)).1.mDataBuffers
        = s.mDataBuffers ++ keys.map (fun k => (k, s.mSrcCrop)) ∧
    cacheInvalUnmaps (runOps bmTotal s (keys.map PlaneOp.opSetDataBuffer)).2 = [] ∧
    (runOps bmTotal s (keys.map PlaneOp.opSetDataBuffer)).1.mInitialized = true ∧
    (runOps bmTotal s (keys.map PlaneOp.opSetDataBuffer)).1.mCacheCapacity
        = s.mCacheCapacity ∧
    (runOps bmTotal s (keys.map PlaneOp.opSetDataBuffer)).1.mSrcCrop = s.mSrcCrop ∧
    ((runOps bmTotal s (keys.map PlaneOp.opSetDataBuffer)).1.mCurrentDataBuffer
        = s.mCurrentDataBuffer ∨
     (runOps bmTotal s (keys.map PlaneOp.opSetDataBuffer)).1.mCurrentDataBuffer ∈ keys) := by
  induction keys generalizing s with
  | nil =>
    exact ⟨by simp [runOps], rfl, hinit, rfl, rfl, Or.inl rfl⟩
  | cons k rest ih =>
    rcases List.nodup_cons.mp hnd with ⟨hkrest, hndrest⟩
    simp only [List.mem_cons, not_or] at h0 hcur
    have hcap : ¬ s.mCacheCapacity ≤ s.mDataBuffers.length := by
      simp only [List.length_cons] at hlen
      omega
    have hstep := setDataBuffer_freshInsert s k hinit (Ne.symm h0.1) hcur.1
      (hfresh k (List.mem_cons_self k rest)) hcap
    obtain ⟨hd, hc, hi, hcc, hsc, hcu⟩ := hstep
    have hrun : runOps bmTotal s ((k :: rest).map PlaneOp.opSetDataBuffer)
        = ((runOps bmTotal (DisplayPlane.setDataBuffer bmTotal s k).2.1
              (rest.map PlaneOp.opSetDataBuffer)).1,
           (DisplayPlane.setDataBuffer bmTotal s k).2.2 ++
           (runOps bmTotal (DisplayPlane.setDataBuffer bmTotal s k).2.1
              (rest.map PlaneOp.opSetDataBuffer)).2) := rfl
    have ihres := ih (DisplayPlane.setDataBuffer bmTotal s k).2.1 hi hndrest h0.2
      (by
        intro j hj
        rw [hd, kvFind_append]
        rw [hfresh j (List.mem_cons_of_mem k hj)]
        rw [kvFind_singleton_ne k j s.mSrcCrop (by
          intro hjk
          exact hkrest (hjk ▸ hj))]
        rfl)
      (by
        rw [hc]
        intro hmem
        exact hkrest hmem)
      (by
        rw [hd, hcc, List.length_append]
        have h1 : ([(k, s.mSrcCrop)]).length = 1 := rfl
        rw [h1]
        simp only [List.length_cons] at hlen
        omega)
    obtain ⟨id1, ic1, ii1, icc1, isc1, icu1⟩ := ihres
    rw [hrun]
    refine ⟨?_, ?_, ii1, by rw [icc1, hcc], by rw [isc1, hsc], ?_⟩
    · rw [id1, hd, hsc]
      simp [List.append_assoc]
    · rw [cacheInvalUnmaps_append, hcu, ic1]
      rfl
    · rcases icu1 with hcu1 | hcu1
      · rw [hcu1, hc]
        exact Or.inr (List.mem_cons_self k rest)
      · exact Or.inr (List.mem_cons_of_mem k hcu1)

/-! ## Claim C7: the (C+1)-th distinct insertion -/

/-- C7 counterexample: capacity 2 (from `initialize(1)` clamped), three distinct
insertions. During the 3rd insertion the full-cache invalidation unmaps keys 1
and 2 once each, but the Active Set's own FIFO eviction unmaps key 1 again in
the same insertion, so key 1 is unmapped twice — refuting "unmapping each
previously mapped entry exactly once". The first two insertions emit no unmap at
all, so both unmaps of key 1 happen during the 3rd insertion. -/
theorem claim_c7_counterexample :
    (unmapsOf (runOps bmTotal ((DisplayPlane.construct 0 0 0).initPlane 1)
        [PlaneOp.opSetDataBuffer 1, PlaneOp.opSetDataBuffer 2]).2) = [] ∧
    (unmapsOf (runOps bmTotal ((DisplayPlane.construct 0 0 0).initPlane 1)
        [PlaneOp.opSetDataBuffer 1, PlaneOp.opSetDataBuffer 2,
         PlaneOp.opSetDataBuffer 3]).2).count 1 = 2 := by
  constructor
  · decide
  · decide

/-- C7 (amended): for a cache of capacity `C` (at least the floor) receiving
`C+1` distinct non-null identities from an empty start, the (C+1)-th insertion
first evicts every cached entry — the full-cache invalidation unmaps each of
the `C` previously cached identities exactly once (the invalidation unmaps are
precisely the first `C` keys) — and then inserts the new one, so the cache
holds exactly 1 entry afterwards. (Unmap calls from the Active Set's own FIFO
eviction are additional and are not counted here.) -/
theorem claim_c7_thm (C : Nat) (keys : List Nat)
    (hC : MIN_DATA_BUFFER_COUNT ≤ C)
    (hklen : keys.length = C + 1)
    (hnd : keys.Nodup) (h0 : (0 : Nat) ∉ keys) :
    (runOps bmTotal ((DisplayPlane.construct 0 0 0).initPlane C)
        (keys.map PlaneOp.opSetDataBuffer)).1.mDataBuffers.length = 1 ∧
    cacheInvalUnmaps (runOps bmTotal ((DisplayPlane.construct 0 0 0).initPlane C)
        (keys.map PlaneOp.opSetDataBuffer)).2 = keys.dropLast ∧
    (∀ k ∈ keys.dropLast,
       (cacheInvalUnmaps (runOps bmTotal ((DisplayPlane.construct 0 0 0).initPlane C)
          (keys.map PlaneOp.opSetDataBuffer)).2).count k = 1) := by
  have hne : keys ≠ [] := by
    intro h
    rw [h] at hklen
    simp at hklen
  have hcap0 : ((DisplayPlane.construct 0 0 0).initPlane C).mCacheCapacity = C := by
    unfold DisplayPlane.initPlane
    dsimp only
    rw [if_neg (by simp only [MIN_DATA_BUFFER_COUNT] at hC ⊢; omega)]
  have hksnd : keys.dropLast.Nodup := hnd.sublist (List.dropLast_sublist keys)
  have hks0 : (0 : Nat) ∉ keys.dropLast := fun hmem =>
    h0 ((List.dropLast_sublist keys).mem hmem)
  have hklmem : keys.getLast hne ∈ keys := List.getLast_mem hne
  have hkl0 : keys.getLast hne ≠ 0 := fun h => h0 (h ▸ hklmem)
  have hklnot : keys.getLast hne ∉ keys.dropLast := by
    intro hmem
    have hsplit : keys.dropLast ++ [keys.getLast hne] = keys :=
      List.dropLast_append_getLast hne
    have hnd2 : (keys.dropLast ++ [keys.getLast hne]).Nodup := by
      rw [hsplit]
      exact hnd
    rcases List.nodup_append.mp hnd2 with ⟨_, _, hdisj⟩
    exact hdisj hmem (List.mem_singleton_self _)
  have hkslen : keys.dropLast.length = C := by
    rw [List.length_dropLast, hklen]
    omega
  have hdb : ((DisplayPlane.construct 0 0 0).initPlane C).mDataBuffers = [] := rfl
  have hfill := insertRun_fill keys.dropLast ((DisplayPlane.construct 0 0 0).initPlane C)
    rfl hksnd hks0 (fun k _ => rfl)
    (by
      show (0 : Nat) ∉ keys.dropLast
      exact hks0)
    (by
      rw [hcap0, hkslen, hdb]
      simp)
  obtain ⟨fd, fc, fi, fcc, fsc, fcu⟩ := hfill
  have hch : (runOps bmTotal ((DisplayPlane.construct 0 0 0).initPlane C)
      (keys.dropLast.map PlaneOp.opSetDataBuffer)).1.mCurrentDataBuffer
      ≠ keys.getLast hne := by
    rcases fcu with hcu | hcu
    · rw [hcu]
      exact fun h => hkl0 h.symm
    · intro h
      exact hklnot (h ▸ hcu)
  have hfind : DisplayPlane.kvFind
      (runOps bmTotal ((DisplayPlane.construct 0 0 0).initPlane C)
        (keys.dropLast.map PlaneOp.opSetDataBuffer)).1.mDataBuffers
      (keys.getLast hne) = none := by
    rw [fd, hdb, List.nil_append]
    exact kvFind_map_none keys.dropLast _ _ hklnot
  have hcaple : (runOps bmTotal ((DisplayPlane.construct 0 0 0).initPlane C)
      (keys.dropLast.map PlaneOp.opSetDataBuffer)).1.mCacheCapacity
      ≤ (runOps bmTotal ((DisplayPlane.construct 0 0 0).initPlane C)
        (keys.dropLast.map PlaneOp.opSetDataBuffer)).1.mDataBuffers.length := by
    rw [fd, hdb, List.nil_append, fcc, hcap0, List.length_map, hkslen]
  have hlast := setDataBuffer_overflowInsert _ (keys.getLast hne) fi hkl0 hch hfind hcaple
  obtain ⟨ld, lc⟩ := hlast
  have hmapsplit : keys.map PlaneOp.opSetDataBuffer
      = keys.dropLast.map PlaneOp.opSetDataBuffer
        ++ [PlaneOp.opSetDataBuffer (keys.getLast hne)] := by
    conv_lhs => rw [← List.dropLast_append_getLast hne]
    rw [List.map_append]
    rfl
  have hs1 : ∀ t : DisplayPlane,
      (runOps bmTotal t [PlaneOp.opSetDataBuffer (keys.getLast hne)]).1
        = (DisplayPlane.setDataBuffer bmTotal t (keys.getLast hne)).2.1 := fun _ => rfl
  have hs2 : ∀ t : DisplayPlane,
      (runOps bmTotal t [PlaneOp.opSetDataBuffer (keys.getLast hne)]).2
        = (DisplayPlane.setDataBuffer bmTotal t (keys.getLast hne)).2.2 ++ [] := fun _ => rfl
  have h2 : cacheInvalUnmaps (runOps bmTotal ((DisplayPlane.construct 0 0 0).initPlane C)
      (keys.map PlaneOp.opSetDataBuffer)).2 = keys.dropLast := by
    rw [hmapsplit, runOps_append]
    dsimp only
    rw [cacheInvalUnmaps_append, fc, hs2, List.append_nil, lc, fd, hdb]
    simp only [List.nil_append, List.map_map]
    rw [show ((fun (e : Nat × Rect) => e.1) ∘
        fun k : Nat => (k, ((DisplayPlane.construct 0 0 0).initPlane C).mSrcCrop))
        = fun k : Nat => k from rfl]
    exact List.map_id' keys.dropLast
  refine ⟨?_, h2, ?_⟩
  · rw [hmapsplit, runOps_append]
    dsimp only
    rw [hs1, ld]
    rfl
  · intro k hk
    rw [h2]
    exact List.count_eq_one_of_mem hksnd hk

/-- C7 witness: the amended theorem applied to capacity 2 and the keys
[1, 2, 3]. -/
theorem claim_c7_witness :
    MIN_DATA_BUFFER_COUNT ≤ 2 ∧ ([1, 2, 3] : List Nat).length = 2 + 1 ∧
    ([1, 2, 3] : List Nat).Nodup ∧ (0 : Nat) ∉ ([1, 2, 3] : List Nat) ∧
    (runOps bmTotal ((DisplayPlane.construct 0 0 0).initPlane 2)
        (([1, 2, 3] : List Nat).map PlaneOp.opSetDataBuffer)).1.mDataBuffers.length = 1 ∧
    cacheInvalUnmaps (runOps bmTotal ((DisplayPlane.construct 0 0 0).initPlane 2)
        (([1, 2, 3] : List Nat).map PlaneOp.opSetDataBuffer)).2
      = ([1, 2, 3] : List Nat).dropLast :=
  ⟨by decide, by decide, by decide, by decide,
   (claim_c7_thm 2 [1, 2, 3] (by decide) (by decide) (by decide) (by decide)).1,
   (claim_c7_thm 2 [1, 2, 3] (by decide) (by decide) (by decide) (by decide)).2.1⟩

end Hwc
